import Mathlib

/-!
Verification of the LabAssistant instrument-control core.

This file shallowly embeds the dispatch/identification engine of the
LabAssistant repository (src/registry.py, src/generic_device.py,
src/ABC/PSU.py, src/ABC/ELOAD.py, src/ABC/SCOPE.py, src/lab_assistant.py)
and proves or refutes the specification claims about it.  Python machine
floats are modelled as exact rationals; Python exceptions are modelled by
an explicit error type; transport I/O is modelled by explicit event traces.
-/

set_option autoImplicit false

namespace LabAssist

/-- Embeds `Channel` from src/enums/generic_enum.py. -/
inductive Channel
  | CH1 | CH2 | CH3 | CH4 | CH5 | CH6 | CH7 | CH8
deriving DecidableEq, Repr

/-- Embeds `State` from src/enums/generic_enum.py. -/
inductive State
  | ON | OFF | UNDEFINED
deriving DecidableEq, Repr

/-- Embeds `EloadMode` from src/enums/eload_enum.py. -/
inductive EloadMode
  | CR | CP | CV | CC | UNDEFINED
deriving DecidableEq, Repr

/-- Embeds `MeasureType` from src/enums/generic_enum.py (the Python
`enum.Enum` aliases `POWER_AC`/`RESISTANCE_4W` collapse onto `POWER` and
`RESISTANCE`, exactly as they do in Python where equal values make aliases). -/
inductive MeasureType
  | VOLTAGE | CURRENT | POWER | VOLTAGE_AC | CURRENT_AC
  | RESISTANCE | CAPACITANCE | FREQUENCY | UNDEFINED
deriving DecidableEq, Repr

/-- Embeds `DeviceType` from src/enums/generic_enum.py. -/
inductive DeviceType
  | PSU | SCOPE | ELOAD | FGEN | DMM | UNDEFINED
deriving DecidableEq, Repr

/-- Embeds `ConnectionType` from src/enums/generic_enum.py. -/
inductive ConnectionType
  | GPIB | USB | ETHERNET | RS232 | RAW | UNDEFINED
deriving DecidableEq, Repr

/-- Embeds `ReadWrite` from src/enums/generic_enum.py. -/
inductive ReadWrite
  | READ | WRITE | AUTO
deriving DecidableEq, Repr

/-- Embeds `DeviceInfo` from src/enums/generic_enum.py; the Python
`set[Channel]` of available channels is modelled as a list. -/
structure DeviceInfo where
  device_type : DeviceType := .UNDEFINED
  manufacturer : String := "Undefined"
  model : String := "Undefined"
  id_cmd : String := "Undefined"
  available_channels : List Channel := []
deriving DecidableEq, Repr

/-- Embeds `ConnectionInfo` from src/enums/generic_enum.py. -/
structure ConnectionInfo where
  resource : String := "Undefined"
  connection_type : ConnectionType := .UNDEFINED
  manf_model : String := "Undefined"
  enable_debug : Bool := false
  simulated_hw : Bool := false
  forced_driver : String := "None"
deriving DecidableEq, Repr

/-- Python exceptions raised by the embedded code, one constructor per
exception class that the embedded fragments can raise (src/util/errors.py
plus the built-in `ValueError`, `KeyError`, `IndexError`, `AttributeError`
and `NotImplementedError`). -/
inductive PyErr
  | ValueError (msg : String)
  | KeyError (msg : String)
  | IndexError
  | AttributeError (name : String)
  | NotImplemented (msg : String)
  | DeviceChannelError (msg : String)
  | DeviceConnectionError (msg : String)
  | DeviceInitializationError (msg : String)
  | UnimplementedSafetyCriticalMethod (method_name : String)
deriving DecidableEq, Repr

/-! ### Python string primitives

Helpers mirroring the exact Python `str` operations the source uses
(`in`, `.strip(chars)`, `.replace`, `.lower`, `.split`, `max(..., key=len)`,
list indexing).  ASCII lowering matches Python on the ASCII identifiers the
registry holds. -/

/-- Boolean prefix test on character lists. -/
def isPrefixOfB : List Char → List Char → Bool
  | [], _ => true
  | _ :: _, [] => false
  | a :: as, b :: bs => a == b && isPrefixOfB as bs

/-- Boolean substring test: Python `sub in hay` on character lists. -/
def containsSub (sub : List Char) : List Char → Bool
  | [] => isPrefixOfB sub []
  | c :: t => isPrefixOfB sub (c :: t) || containsSub sub t

/-- Python `sub in hay` on strings. -/
def strContains (hay sub : String) : Bool :=
  containsSub sub.data hay.data

/-- Python `s.strip(c)` for a single strip character: removes every leading
and trailing occurrence of `c`. -/
def pyStripChar (c : Char) (s : String) : String :=
  ⟨((s.data.dropWhile (· == c)).reverse.dropWhile (· == c)).reverse⟩

/-- Python `s.lower()` (ASCII; the identifiers the registry holds are
ASCII).  Implemented over the character list so that it evaluates by kernel
reduction. -/
def pyLower (s : String) : String :=
  ⟨s.data.map Char.toLower⟩

/-- Python `s.replace("-", "")`: removes every hyphen. -/
def removeHyphens (s : String) : String :=
  ⟨s.data.filter (fun c => c != '-')⟩

/-- Helper for `pySplitUnderscore`: accumulates the current token in
reverse. -/
def splitUnderscoreAux : List Char → List Char → List String
  | [], acc => [⟨acc.reverse⟩]
  | c :: rest, acc =>
    if c = '_' then ⟨acc.reverse⟩ :: splitUnderscoreAux rest []
    else splitUnderscoreAux rest (c :: acc)

/-- Python `s.split("_")` (no maxsplit): `""` yields `[""]`, adjacent
separators yield empty tokens. -/
def pySplitUnderscore (s : String) : List String :=
  splitUnderscoreAux s.data []

/-- Python `max(l, key=len)`: the first element of maximal length (Python's
`max` keeps the incumbent on ties). -/
def pyMaxByLen : List String → String
  | [] => ""
  | h :: t => t.foldl (fun acc x => if acc.length < x.length then x else acc) h

/-- Python list indexing `l[n]` for nonnegative `n`: `IndexError` when out of
range. -/
def pyListGet (l : List String) (n : Nat) : Except PyErr String :=
  match l.get? n with
  | some x => .ok x
  | none => .error .IndexError

/-! ### src/registry.py — `DeviceRegistry`

The Python class-level mutable `_class_registry` list is threaded explicitly:
every classmethod takes the current registry contents as an argument.
A registered driver class is its `__name__` plus its `device_info`. -/

/-- A registered driver class: its Python `__name__` and its `device_info`
descriptor (src/registry.py stores the classes themselves; only these two
attributes are consulted by the registry code). -/
structure DeviceClassE where
  name : String
  info : DeviceInfo
deriving DecidableEq, Repr

/-- Embeds `DeviceRegistry.add_class` (src/registry.py lines 26-65):
checks that `device_info.manufacturer`/`model`, lower-cased, match the
first/second `_`-separated tokens of the class name, then appends. -/
def DeviceRegistry.add_class (registry : List DeviceClassE) (device_class : DeviceClassE) :
    Except PyErr (List DeviceClassE) := do
  let tok0 ← pyListGet (pySplitUnderscore device_class.name) 0
  if pyLower device_class.info.manufacturer ≠ pyLower tok0 then
    .error (.ValueError ("Manufacturer in device_info must match in class " ++
      device_class.name ++ "."))
  else do
    let tok1 ← pyListGet (pySplitUnderscore device_class.name) 1
    if pyLower device_class.info.model ≠ pyLower tok1 then
      .error (.ValueError ("Model in device_info must match in class " ++
        device_class.name ++ "."))
    else
      .ok (registry ++ [device_class])

/-- The normalisation `get_registered_device` applies to the raw device
response (src/registry.py line 113): strip hyphens, strip newlines, lower. -/
def normalizeResponse (device_string : String) : String :=
  pyLower (pyStripChar '\n' (removeHyphens device_string))

/-- The list of `manufacturer_model` names whose manufacturer and model both
occur in the normalised response (src/registry.py lines 115-118). -/
def matchedDevices (registry : List DeviceClassE) (device_string : String) : List String :=
  let ds := normalizeResponse device_string
  registry.filterMap fun device =>
    if strContains ds (pyLower device.info.manufacturer) &&
       strContains ds (pyLower device.info.model) then
      some (device.info.manufacturer ++ "_" ++ device.info.model)
    else
      none

/-- Embeds `DeviceRegistry.get_registered_device` (src/registry.py lines
97-134): match every registered descriptor against the normalised response;
no match yields `""`; otherwise the longest `manufacturer_model` wins. -/
def DeviceRegistry.get_registered_device (registry : List DeviceClassE)
    (device_string : String) : String :=
  let matched := matchedDevices registry device_string
  let matched := if matched.isEmpty then [""] else matched
  pyMaxByLen matched

/-- Embeds `DeviceRegistry.get_class_from_registry` (src/registry.py lines
159-177): case-insensitive lookup by class name. -/
def DeviceRegistry.get_class_from_registry (registry : List DeviceClassE)
    (class_name : String) : Option DeviceClassE :=
  registry.find? fun elem => pyLower elem.name == pyLower class_name

/-- Embeds `DeviceRegistry.get_device_info` (src/registry.py lines 136-157):
lookup by `manufacturer + "_" + model`, `KeyError` when absent. -/
def DeviceRegistry.get_device_info (registry : List DeviceClassE)
    (manufacturer model : String) : Except PyErr DeviceInfo :=
  match DeviceRegistry.get_class_from_registry registry (manufacturer ++ "_" ++ model) with
  | some found => .ok found.info
  | none => .error (.KeyError "Unable to find device in device registry.")

/-- Stable descending insertion by count, modelling Python's stable
`sorted(..., key=count, reverse=True)` in `list_unique_id_cmds`. -/
def insertByCountDesc (x : String × Nat) : List (String × Nat) → List (String × Nat)
  | [] => [x]
  | h :: t => if h.2 < x.2 then x :: h :: t else h :: insertByCountDesc x t

/-- Embeds `DeviceRegistry.list_unique_id_cmds` (src/registry.py lines
67-95): id commands ordered by descending frequency, ties in
first-occurrence order. -/
def DeviceRegistry.list_unique_id_cmds (registry : List DeviceClassE) : List String :=
  let id_list := registry.map (·.info.id_cmd)
  let freq := id_list.foldl (fun acc c =>
    if acc.any (·.1 == c) then
      acc.map fun p => if p.1 == c then (p.1, p.2 + 1) else p
    else
      acc ++ [(c, 1)]) ([] : List (String × Nat))
  (freq.foldl (fun acc x => insertByCountDesc x acc) []).map (·.1)

/-! ### src/generic_device.py — `DeviceConnection` and `GenericDevice`

Transport I/O is modelled by explicit traces: `identify` returns the list of
commands queried on the transport, and `GenericDevice.send_command` returns
a list of events (operation-complete wait, dispatch attempts, reconnects,
sleeps).  The live transport itself is abstracted as a response stream. -/

/-- A channel argument as the Python wrappers accept it: either a single
`Channel` or a `list[Channel]`. -/
inductive ChannelArg
  | single (ch : Channel)
  | listed (chs : List Channel)
deriving DecidableEq, Repr

/-- Embeds `GenericDevice._convert_channel_type` (src/generic_device.py
lines 516-528): a single channel becomes a one-element list. -/
def GenericDevice.convert_channel_type : ChannelArg → List Channel
  | .single ch => [ch]
  | .listed chs => chs

/-- The `for ch in channel` loop of `_check_channel_exists`: the first
channel outside `available_channels` raises `DeviceChannelError`. -/
def checkChannelLoop (info : DeviceInfo) : List Channel → Except PyErr Bool
  | [] => .ok true
  | ch :: rest =>
    if info.available_channels.contains ch then
      checkChannelLoop info rest
    else
      .error (.DeviceChannelError ("Channel does not exist on this device. " ++ info.model))

/-- Embeds `GenericDevice._check_channel_exists` (src/generic_device.py
lines 495-514). -/
def GenericDevice.check_channel_exists (info : DeviceInfo) (channel : ChannelArg) :
    Except PyErr Bool :=
  checkChannelLoop info (GenericDevice.convert_channel_type channel)

/-- Embeds `DeviceConnection._define_port` (src/generic_device.py lines
108-128): Ethernet wraps the resource in TCPIP addressing, RAW passes it
through, every other kind raises `ValueError`. -/
def DeviceConnection.define_port (resource : String) (connection_type : ConnectionType) :
    Except PyErr String :=
  match connection_type with
  | .ETHERNET => .ok ("TCPIP::" ++ resource ++ "::INSTR")
  | .RAW => .ok resource
  | _ => .error (.ValueError "Unsupported connection type")

/-- The keyword arguments accepted by `DeviceConnection.__init__`
(src/generic_device.py lines 75-96). -/
structure Kwargs where
  EnableDebug : Bool := false
  SimulatedHW : Bool := false
  Forced_Driver : Option String := none
deriving DecidableEq, Repr

/-- Embeds the `ConnectionInfo` construction in `DeviceConnection.__init__`
(src/generic_device.py lines 88-96): the resource is run through
`_define_port`, kwargs are read with their defaults, and the forced driver
is lower-cased (default `"None"` becomes `"none"`). -/
def DeviceConnection.mkInfo (resource : String) (connection_type : ConnectionType)
    (kwargs : Kwargs) : Except PyErr ConnectionInfo := do
  let port ← DeviceConnection.define_port resource connection_type
  .ok { resource := port
        connection_type := connection_type
        enable_debug := kwargs.EnableDebug
        simulated_hw := kwargs.SimulatedHW
        forced_driver := pyLower (kwargs.Forced_Driver.getD "None") }

/-- Outcome of one `get_registered_device` check inside the identify loop
(src/generic_device.py lines 229-233): the updated `manf_model` and whether
the loop breaks. -/
def identifyCheck (registry : List DeviceClassE) (response : String)
    (cur : Option String) : Option String × Bool :=
  if response ≠ "" then
    let m := DeviceRegistry.get_registered_device registry response
    (some m, m ≠ "")
  else
    (cur, false)

/-- The `for idn_command in unique_idn_commands` loop of `identify`
(src/generic_device.py lines 214-238).  `responses n` is the transport's
answer to the `n`-th query issued on this connection (`.error ()` is a
`VisaIOError` timeout, swallowed by the loop); the returned trace lists the
commands queried, in order.  A response shorter than 8 characters is
re-queried once; both queries sit inside the same `try`. -/
def identifyLoop (registry : List DeviceClassE) (responses : Nat → Except Unit String) :
    List String → Option String → Nat → List String → Option String × Nat × List String
  | [], cur, n, trace => (cur, n, trace)
  | cmd :: rest, cur, n, trace =>
    match responses n with
    | .error _ => identifyLoop registry responses rest cur (n + 1) (trace ++ [cmd])
    | .ok r1 =>
      let requeried : Except Unit String × Nat × List String :=
        if r1.length < 8 then
          (responses (n + 1), n + 2, trace ++ [cmd, cmd])
        else
          (.ok r1, n + 1, trace ++ [cmd])
      match requeried with
      | (.error _, n2, tr2) => identifyLoop registry responses rest cur n2 tr2
      | (.ok resp, n2, tr2) =>
        match identifyCheck registry resp cur with
        | (cur2, true) => (cur2, n2, tr2)
        | (cur2, false) => identifyLoop registry responses rest cur2 n2 tr2

/-- Embeds `DeviceConnection.identify` (src/generic_device.py lines
168-253).  `visa_device_present` is `self._visa_device is not None` (false
exactly when the hardware is simulated), `user_input` is the console answer
to the unverified-forced-driver prompt, and `id_cmd` is the optional
explicit identification command.  Returns the result paired with the trace
of transport queries. -/
def DeviceConnection.identify (info : ConnectionInfo) (registry : List DeviceClassE)
    (visa_device_present : Bool) (responses : Nat → Except Unit String)
    (user_input : String) (id_cmd : Option String) :
    Except PyErr String × List String :=
  let flag_hw_sim := info.simulated_hw
  let forced_driver := info.forced_driver
  if flag_hw_sim then
    if forced_driver == "none" then
      (.error (.ValueError
        "Simulated HW requires a forced driver to be set. What device should we simulate?"), [])
    else
      (.ok forced_driver, [])
  else
    let id_cmd_found : Except PyErr (Option String) :=
      if forced_driver ≠ "none" then do
        let tok0 ← pyListGet (pySplitUnderscore forced_driver) 0
        let tok1 ← pyListGet (pySplitUnderscore forced_driver) 1
        let reg_info ← DeviceRegistry.get_device_info registry tok0 tok1
        .ok (some reg_info.id_cmd)
      else
        .ok id_cmd
    match id_cmd_found with
    | .error e => (.error e, [])
    | .ok id_cmd =>
      let scanned : Option String × Nat × List String :=
        if visa_device_present then
          let unique_idn_commands := match id_cmd with
            | none => DeviceRegistry.list_unique_id_cmds registry
            | some c => [c]
          identifyLoop registry responses unique_idn_commands none 0 []
        else
          (none, 0, [])
      let manf_model := scanned.1
      let trace := scanned.2.2
      let notFound : Except PyErr String :=
        if forced_driver ≠ "none" ∧ user_input == "y" then
          .ok forced_driver
        else
          .error (.DeviceConnectionError "Failed to identify model using available IDN commands.")
      match manf_model with
      | none => (notFound, trace)
      | some mm =>
        if mm = "" then
          (notFound, trace)
        else if forced_driver ≠ "none" ∧ pyLower forced_driver ≠ pyLower mm then
          (.error (.DeviceInitializationError
            ("Forced driver " ++ forced_driver ++ " does not match detected device " ++ mm)), trace)
        else
          (.ok mm, trace)

/-- A `pyvisa.VisaIOError`, identified by its error code. -/
structure VisaErr where
  error_code : Int
deriving DecidableEq, Repr

/-- The `VI_ERROR_CONN_LOST` code tested at src/generic_device.py line 438. -/
def connLostCode : Int := -1073807194

/-- Observable events of `GenericDevice.send_command`: the
operation-complete wait, the `n`-th dispatch to the connection, a
`_reconnect` call, a 1-second sleep. -/
inductive Ev
  | opcWait | dispatch (n : Nat) | reconnect | sleep1
deriving DecidableEq, Repr

/-- The `while com_error < 5` retry loop of `GenericDevice.send_command`
(src/generic_device.py lines 429-449).  `conn k` is the outcome of the
`k`-th dispatch of this command through the connection.  A caught failure
reconnects when its code is `connLostCode` and sleeps 1 s; after the fifth
caught failure the command is dispatched once more outside the `try`, so
that dispatch's error propagates. -/
def send_retry_loop (conn : Nat → Except VisaErr String) (k : Nat) :
    Except VisaErr String × List Ev :=
  if _h : k < 5 then
    match conn k with
    | .ok response => (.ok response, [.dispatch k])
    | .error e =>
      let evs := [Ev.dispatch k] ++
        (if e.error_code = connLostCode then [Ev.reconnect] else []) ++ [Ev.sleep1]
      if k + 1 = 5 then
        (conn 5, evs ++ [Ev.dispatch 5])
      else
        let r := send_retry_loop conn (k + 1)
        (r.1, evs ++ r.2)
  else
    (conn k, [])
termination_by 5 - k

/-- Embeds `GenericDevice.send_command` (src/generic_device.py lines
407-451): unless `skip_opc` is set, `_operation_wait` runs first; then the
retry loop dispatches the command. -/
def GenericDevice.send_command (conn : Nat → Except VisaErr String) (skip_opc : Bool) :
    Except VisaErr String × List Ev :=
  let pre : List Ev := if skip_opc then [] else [Ev.opcWait]
  let r := send_retry_loop conn 0
  (r.1, pre ++ r.2)

/-! ### src/generic_device.py — `_safe_string_to_float`

Python machine floats are modelled exactly: a successfully parsed literal
becomes the rational it denotes (`finite`), or an infinity / NaN.  The three
regular expressions of `_safe_string_to_float` are implemented as explicit
matchers with `re.findall` scanning semantics (leftmost, non-overlapping,
greedy `\d+`). -/

/-- A Python `float` value as produced by `float(...)`: modelled without
rounding, as the exact rational the literal denotes, plus the special
values. -/
inductive PyFloatVal
  | finite (q : ℚ)
  | infVal (neg : Bool)
  | nanVal
deriving DecidableEq, Repr

/-- Whitespace as Python's `str.strip()` and the regex class `\s` see it
(ASCII subset; the instrument responses at issue are ASCII). -/
def pyWhitespace (c : Char) : Bool :=
  c == ' ' || c == '\t' || c == '\n' || c == '\r' || c == '\x0b' || c == '\x0c'

/-- Greedy run of decimal digits allowing Python's single underscores
between digits; returns the accumulated value, the digit count and the
rest.  Entered after at least one digit has been consumed. -/
def uDigitsGo (acc cnt : Nat) : List Char → Nat × Nat × List Char
  | [] => (acc, cnt, [])
  | c :: rest =>
    if c.isDigit then
      uDigitsGo (acc * 10 + (c.toNat - 48)) (cnt + 1) rest
    else if c == '_' then
      match rest with
      | d :: r2 =>
        if d.isDigit then
          uDigitsGo (acc * 10 + (d.toNat - 48)) (cnt + 1) r2
        else
          (acc, cnt, c :: rest)
      | [] => (acc, cnt, [c])
    else
      (acc, cnt, c :: rest)
termination_by l => l.length

/-- One-or-more digits with optional single underscores between them
(the digit-group grammar of Python float literals). -/
def parseUDigits : List Char → Option (Nat × Nat × List Char)
  | [] => none
  | c :: rest =>
    if c.isDigit then
      some (uDigitsGo (c.toNat - 48) 1 rest)
    else
      none

/-- Optional exponent part of a Python float literal: nothing, or
`e`/`E`, an optional sign, and digits; a bare `e` without digits fails the
whole parse. -/
def parseExpOpt : List Char → Option (Int × List Char)
  | [] => some (0, [])
  | c :: r =>
    if c == 'e' || c == 'E' then
      let signed : Int × List Char :=
        match r with
        | '+' :: rr => (1, rr)
        | '-' :: rr => (-1, rr)
        | rr => (1, rr)
      match parseUDigits signed.2 with
      | some (ev, _, r3) => some (signed.1 * (ev : Int), r3)
      | none => none
    else
      some (0, c :: r)

/-- The numeric body of a Python float literal (after sign stripping):
`digits [. [digits]] [exp]` or `. digits [exp]`, required to consume the
whole input. -/
def parseNumber (l : List Char) : Option ℚ :=
  match l with
  | '.' :: r =>
    match parseUDigits r with
    | none => none
    | some (fv, fc, r1) =>
      match parseExpOpt r1 with
      | none => none
      | some (ex, r2) =>
        if r2 = [] then some ((fv : ℚ) / 10 ^ fc * (10 : ℚ) ^ ex) else none
  | _ =>
    match parseUDigits l with
    | none => none
    | some (ip, _, r1) =>
      let fracRest : ℚ × List Char :=
        match r1 with
        | '.' :: rr =>
          match parseUDigits rr with
          | some (fv, fc, r3) => ((fv : ℚ) / 10 ^ fc, r3)
          | none => (0, rr)
        | _ => (0, r1)
      match parseExpOpt fracRest.2 with
      | none => none
      | some (ex, r3) =>
        if r3 = [] then some (((ip : ℚ) + fracRest.1) * (10 : ℚ) ^ ex) else none

/-- Models Python's `float(s)`: strip surrounding whitespace, optional
sign, then a numeric literal or `inf`/`infinity`/`nan` (case-insensitive);
`none` is a `ValueError`. -/
def python_float (s : String) : Option PyFloatVal :=
  let stripped := ((s.data.dropWhile pyWhitespace).reverse.dropWhile pyWhitespace).reverse
  let signSplit : Bool × List Char :=
    match stripped with
    | '+' :: r => (false, r)
    | '-' :: r => (true, r)
    | r => (false, r)
  let neg := signSplit.1
  let body := signSplit.2
  let low := body.map Char.toLower
  if low = "inf".data ∨ low = "infinity".data then
    some (.infVal neg)
  else if low = "nan".data then
    some .nanVal
  else
    (parseNumber body).map fun q => .finite (if neg then -q else q)

/-- The regex character class `[\s|+-]` shared by the three patterns of
`_safe_string_to_float`. -/
def classSign (c : Char) : Bool :=
  pyWhitespace c || c == '|' || c == '+' || c == '-'

/-- Greedy `\d+`: fails unless at least one digit is present. -/
def takeDigits1 (l : List Char) : Option (List Char × List Char) :=
  let ds := l.takeWhile Char.isDigit
  if ds.isEmpty then none else some (ds, l.drop ds.length)

/-- The pattern `\d+\.\d+[Ee][-+]\d+` (scientific notation without the
leading optional class). -/
def matchSciCore (l : List Char) : Option (List Char × List Char) := do
  let (d1, r1) ← takeDigits1 l
  match r1 with
  | '.' :: r2 => do
    let (d2, r3) ← takeDigits1 r2
    match r3 with
    | e :: r4 =>
      if e == 'E' || e == 'e' then
        match r4 with
        | sgn :: r5 =>
          if sgn == '-' || sgn == '+' then do
            let (d3, r6) ← takeDigits1 r5
            some (d1 ++ ['.'] ++ d2 ++ [e, sgn] ++ d3, r6)
          else none
        | [] => none
      else none
    | [] => none
  | _ => none

/-- `pattern_sci = r"[\s|+-]?\d+\.\d+[Ee][-+]\d+"` matched at the current
position (src/generic_device.py line 614), with the regex engine's
backtracking on the optional leading class character. -/
def matchSci (l : List Char) : Option (List Char × List Char) :=
  match l with
  | [] => none
  | c :: r =>
    if classSign c then
      match matchSciCore r with
      | some (m, rest) => some (c :: m, rest)
      | none => matchSciCore (c :: r)
    else
      matchSciCore (c :: r)

/-- `pattern_float = r"[\s|+-]\d+\.\d+"` matched at the current position
(src/generic_device.py line 621); the leading class character is
mandatory. -/
def matchFloatPat (l : List Char) : Option (List Char × List Char) :=
  match l with
  | [] => none
  | c :: r =>
    if classSign c then do
      let (d1, r1) ← takeDigits1 r
      match r1 with
      | '.' :: r2 => do
        let (d2, r3) ← takeDigits1 r2
        some (c :: d1 ++ ['.'] ++ d2, r3)
      | _ => none
    else
      none

/-- `pattern_int = r"[\s|+-]\d+"` matched at the current position
(src/generic_device.py line 626). -/
def matchIntPat (l : List Char) : Option (List Char × List Char) :=
  match l with
  | [] => none
  | c :: r =>
    if classSign c then
      (takeDigits1 r).map fun p => (c :: p.1, p.2)
    else
      none

/-- `re.findall` scanning: try the matcher at each position, emit the match
and resume after it (every pattern here matches at least one character).
Fuel bounds the scan by the input length. -/
def findallGo (matcher : List Char → Option (List Char × List Char)) :
    Nat → List Char → List (List Char)
  | 0, _ => []
  | _ + 1, [] => []
  | fuel + 1, c :: t =>
    match matcher (c :: t) with
    | some (m, rest) => m :: findallGo matcher fuel rest
    | none => findallGo matcher fuel t

/-- `re.findall(pattern, s)` for the three patterns above. -/
def pyFindall (matcher : List Char → Option (List Char × List Char)) (s : String) :
    List String :=
  (findallGo matcher (s.data.length + 1) s.data).map fun m => ⟨m⟩

/-- The per-match `float(match)` conversion in the final loop of
`_safe_string_to_float` (src/generic_device.py lines 640-645): a match that
`float` rejects warns and contributes `0.0`. -/
def convertMatch (input_str m : String) : PyFloatVal × List String :=
  match python_float m with
  | some v => (v, [])
  | none =>
    (.finite 0,
      ["Failed to convert instrument response <" ++ input_str ++ "-->" ++ m ++ " to float."])

/-- Embeds `GenericDevice._safe_string_to_float` (src/generic_device.py
lines 578-647).  Returns the parsed values and the warnings emitted, in
order. -/
def GenericDevice.safe_string_to_float (input_str : String) :
    List PyFloatVal × List String :=
  match python_float input_str with
  | some v => ([v], [])
  | none =>
    let matchList := pyFindall matchSci input_str
    let matchList := if matchList.isEmpty then pyFindall matchFloatPat input_str else matchList
    let matchList := if matchList.isEmpty then pyFindall matchIntPat input_str else matchList
    let warn0 : List String :=
      if matchList.isEmpty then
        ["Failed to convert instrument response <" ++ input_str ++ "> to float. Returning [0.0]"]
      else []
    let conv := matchList.map (convertMatch input_str)
    let float_vals := conv.map (·.1)
    let warns := warn0 ++ conv.foldr (fun p acc => p.2 ++ acc) []
    (if float_vals.isEmpty then [.finite 0] else float_vals, warns)

/-! ### src/enums/scope_enum.py -/

/-- Embeds `VDiv` from src/enums/scope_enum.py. -/
inductive VDiv
  | _500uV | _1mV | _2mV | _5mV | _10mV | _20mV | _50mV | _100mV | _200mV
  | _500mV | _1V | _2V | _5V | _10V
deriving DecidableEq, Repr

/-- Embeds `Stats` from src/enums/scope_enum.py. -/
inductive Stats
  | PKPK | MAX | MIN | AMPL | TOP | BASE | MEAN | RMS | PER | FREQ
  | RISE | FALL | DUTY
deriving DecidableEq, Repr

/-! ### src/ABC/ELOAD.py — `GenericEload`

The concrete driver's protected primitives (`_enable_output`, `_set_load`,
…) are a parameter: an `EloadDriver` over an abstract device state `σ`.
Each primitive returns its new state together with the transport commands
it issued.  The `@final` public wrappers are embedded as functions of the
driver; their result pairs the outcome with the transport trace. -/

/-- Embeds `EloadSlewRate` from src/enums/eload_enum.py. -/
inductive EloadSlewRate
  | FASTEST | SLOWEST | CUSTOM | UNDEFINED
deriving DecidableEq, Repr

/-- The protected primitives a concrete electronic-load driver implements
(the `@abstractmethod`s of src/ABC/ELOAD.py), over device state `σ`; each
returns the transport commands it issues. -/
structure EloadDriver (σ : Type) where
  reset_raw : σ → σ × List String
  enable_output : Channel → σ → σ × List String
  disable_output : Channel → σ → σ × List String
  get_output_state : Channel → σ → State × List String
  set_load : EloadMode → ℚ → Channel → σ → σ × List String
  set_mode : EloadMode → Channel → σ → σ × List String
  get_mode : Channel → σ → EloadMode × List String
  get_load : Channel → σ → ℚ × List String
  set_remote_sense : State → Channel → σ → σ × List String
  set_slew_rate : EloadSlewRate → ℚ → Channel → σ → ℚ × σ × List String
  measure : MeasureType → Channel → σ → ℚ × σ × List String

/-- Embeds `GenericEload.enable_output` (src/ABC/ELOAD.py lines 88-98). -/
def GenericEload.enable_output {σ : Type} (d : EloadDriver σ) (info : DeviceInfo)
    (channel : Channel) (s : σ) : Except PyErr (σ × List String) := do
  let _ ← GenericDevice.check_channel_exists info (.single channel)
  .ok (d.enable_output channel s)

/-- Embeds `GenericEload.disable_output` (src/ABC/ELOAD.py lines 109-119). -/
def GenericEload.disable_output {σ : Type} (d : EloadDriver σ) (info : DeviceInfo)
    (channel : Channel) (s : σ) : Except PyErr (σ × List String) := do
  let _ ← GenericDevice.check_channel_exists info (.single channel)
  .ok (d.disable_output channel s)

/-- Embeds `GenericEload.set_output_state` (src/ABC/ELOAD.py lines 130-145):
checks the channel, then calls the public enable/disable wrapper. -/
def GenericEload.set_output_state {σ : Type} (d : EloadDriver σ) (info : DeviceInfo)
    (state : State) (channel : Channel) (s : σ) : Except PyErr (σ × List String) := do
  let _ ← GenericDevice.check_channel_exists info (.single channel)
  if state = State.ON then
    GenericEload.enable_output d info channel s
  else
    GenericEload.disable_output d info channel s

/-- Embeds `GenericEload.get_output_state` (src/ABC/ELOAD.py lines 147-158). -/
def GenericEload.get_output_state {σ : Type} (d : EloadDriver σ) (info : DeviceInfo)
    (channel : Channel) (s : σ) : Except PyErr (State × List String) := do
  let _ ← GenericDevice.check_channel_exists info (.single channel)
  .ok (d.get_output_state channel s)

/-- Embeds `GenericEload.set_load` (src/ABC/ELOAD.py lines 172-184). -/
def GenericEload.set_load {σ : Type} (d : EloadDriver σ) (info : DeviceInfo)
    (mode : EloadMode) (value : ℚ) (channel : Channel) (s : σ) :
    Except PyErr (σ × List String) := do
  let _ ← GenericDevice.check_channel_exists info (.single channel)
  .ok (d.set_load mode value channel s)

/-- Embeds `GenericEload.set_mode` (src/ABC/ELOAD.py lines 197-211); also
returns the updated `_eload_mode` cache. -/
def GenericEload.set_mode {σ : Type} (d : EloadDriver σ) (info : DeviceInfo)
    (mode : EloadMode) (channel : Channel) (s : σ) :
    Except PyErr (σ × List String × EloadMode) := do
  let _ ← GenericDevice.check_channel_exists info (.single channel)
  let r := d.set_mode mode channel s
  .ok (r.1, r.2, mode)

/-- Embeds `GenericEload.get_mode` (src/ABC/ELOAD.py lines 224-235). -/
def GenericEload.get_mode {σ : Type} (d : EloadDriver σ) (info : DeviceInfo)
    (channel : Channel) (s : σ) : Except PyErr (EloadMode × List String) := do
  let _ ← GenericDevice.check_channel_exists info (.single channel)
  .ok (d.get_mode channel s)

/-- Embeds `GenericEload.get_load` (src/ABC/ELOAD.py lines 248-259). -/
def GenericEload.get_load {σ : Type} (d : EloadDriver σ) (info : DeviceInfo)
    (channel : Channel) (s : σ) : Except PyErr (ℚ × List String) := do
  let _ ← GenericDevice.check_channel_exists info (.single channel)
  .ok (d.get_load channel s)

/-- Embeds `GenericEload.set_remote_sense` (src/ABC/ELOAD.py lines
272-290): checks the channel, rejects `UNDEFINED`, reads the output state
(a console warning if it is on), then calls the primitive. -/
def GenericEload.set_remote_sense {σ : Type} (d : EloadDriver σ) (info : DeviceInfo)
    (state : State) (channel : Channel) (s : σ) : Except PyErr (σ × List String) := do
  let _ ← GenericDevice.check_channel_exists info (.single channel)
  if state = State.UNDEFINED then
    .error (.ValueError "Unsupported state sent to Set_Remote_Sense()")
  else do
    let q ← GenericEload.get_output_state d info channel s
    let r := d.set_remote_sense state channel s
    .ok (r.1, q.2 ++ r.2)

/-- Embeds `GenericEload.set_slew_rate` (src/ABC/ELOAD.py lines 303-317). -/
def GenericEload.set_slew_rate {σ : Type} (d : EloadDriver σ) (info : DeviceInfo)
    (slew_rate : EloadSlewRate) (slew_amps_per_ms : ℚ) (channel : Channel) (s : σ) :
    Except PyErr (ℚ × σ × List String) := do
  let _ ← GenericDevice.check_channel_exists info (.single channel)
  .ok (d.set_slew_rate slew_rate slew_amps_per_ms channel s)

/-- Embeds `GenericEload.measure` (src/ABC/ELOAD.py lines 334-347).  Note:
unlike every other public wrapper, the source performs no
`_check_channel_exists` call here — it forwards directly to the driver's
`_measure`. -/
def GenericEload.measure {σ : Type} (d : EloadDriver σ) (_info : DeviceInfo)
    (measure_type : MeasureType) (channel : Channel) (s : σ) :
    Except PyErr (ℚ × σ × List String) :=
  .ok (d.measure measure_type channel s)

/-- The `for ch in self.device_info.available_channels` loop of
`GenericEload.reset_device` (src/ABC/ELOAD.py lines 73-76): disable the
output, set constant-resistance at 10 kΩ, disable remote sense. -/
def eloadResetLoop {σ : Type} (d : EloadDriver σ) (info : DeviceInfo) :
    List Channel → σ → List String → Except PyErr (σ × List String)
  | [], s, tr => .ok (s, tr)
  | ch :: rest, s, tr => do
    let r1 ← GenericEload.disable_output d info ch s
    let r2 ← GenericEload.set_load d info EloadMode.CR 10000 ch r1.1
    let r3 ← GenericEload.set_remote_sense d info State.OFF ch r2.1
    eloadResetLoop d info rest r3.1 (tr ++ r1.2 ++ r2.2 ++ r3.2)

/-- Embeds `GenericEload.reset_device` (src/ABC/ELOAD.py lines 61-78): the
driver's own `_reset_device` runs first, then the generic default-state
sequence over every available channel. -/
def GenericEload.reset_device {σ : Type} (d : EloadDriver σ) (info : DeviceInfo)
    (s : σ) : Except PyErr (σ × List String) :=
  let r0 := d.reset_raw s
  eloadResetLoop d info info.available_channels r0.1 r0.2

/-! ### src/ABC/PSU.py — `GenericPSU`

Same driver-parameter shape as the load.  The three optional primitives
(`_set_remote_sense`, `_set_ovp`, `_set_ocp`) are `Option` fields: `none`
means the concrete driver does not override them, so Python resolves the
call to the default implementations in `GenericPSU` — which call
`self._raise_warning(...)`. -/

/-- Models the call `self._raise_warning(...)` in the default bodies of
`GenericPSU._set_remote_sense` / `_set_ovp` / `_set_ocp` (src/ABC/PSU.py
lines 290, 361, 421).  No method named `_raise_warning` is defined anywhere
in the repository (neither on `GenericDevice` nor on any category or driver
class), so Python attribute lookup raises `AttributeError` at the call
site. -/
def call_raise_warning (_warning : String) : Except PyErr Unit :=
  .error (.AttributeError "_raise_warning")

/-- The protected primitives of a concrete PSU driver (src/ABC/PSU.py);
the optional protection primitives are `none` when not overridden. -/
structure PSUDriver (σ : Type) where
  enable_output : Channel → σ → σ × List String
  disable_output : Channel → σ → σ × List String
  get_output_state : Channel → σ → State × List String
  set_current : ℚ → Channel → σ → σ × List String
  get_current : Channel → σ → ℚ × List String
  set_voltage : ℚ → Channel → σ → σ × List String
  get_voltage : Channel → σ → ℚ × List String
  measure : MeasureType → Channel → σ → ℚ × List String
  set_remote_sense_ov : Option (Channel → State → σ → σ × List String)
  set_ovp_ov : Option (ℚ → Channel → σ → σ × List String)
  set_ocp_ov : Option (ℚ → Channel → σ → σ × List String)

/-- Embeds `GenericPSU.enable_output` (src/ABC/PSU.py lines 74-84). -/
def GenericPSU.enable_output {σ : Type} (d : PSUDriver σ) (info : DeviceInfo)
    (channel : Channel) (s : σ) : Except PyErr (σ × List String) := do
  let _ ← GenericDevice.check_channel_exists info (.single channel)
  .ok (d.enable_output channel s)

/-- Embeds `GenericPSU.disable_output` (src/ABC/PSU.py lines 97-107). -/
def GenericPSU.disable_output {σ : Type} (d : PSUDriver σ) (info : DeviceInfo)
    (channel : Channel) (s : σ) : Except PyErr (σ × List String) := do
  let _ ← GenericDevice.check_channel_exists info (.single channel)
  .ok (d.disable_output channel s)

/-- Embeds `GenericPSU.set_output_state` (src/ABC/PSU.py lines 118-133):
checks the channel and calls the protected primitive directly. -/
def GenericPSU.set_output_state {σ : Type} (d : PSUDriver σ) (info : DeviceInfo)
    (state : State) (channel : Channel) (s : σ) : Except PyErr (σ × List String) := do
  let _ ← GenericDevice.check_channel_exists info (.single channel)
  if state = State.ON then
    .ok (d.enable_output channel s)
  else
    .ok (d.disable_output channel s)

/-- Embeds `GenericPSU.get_output_state` (src/ABC/PSU.py lines 135-146). -/
def GenericPSU.get_output_state {σ : Type} (d : PSUDriver σ) (info : DeviceInfo)
    (channel : Channel) (s : σ) : Except PyErr (State × List String) := do
  let _ ← GenericDevice.check_channel_exists info (.single channel)
  .ok (d.get_output_state channel s)

/-- Embeds `GenericPSU.set_current` (src/ABC/PSU.py lines 160-171). -/
def GenericPSU.set_current {σ : Type} (d : PSUDriver σ) (info : DeviceInfo)
    (current : ℚ) (channel : Channel) (s : σ) : Except PyErr (σ × List String) := do
  let _ ← GenericDevice.check_channel_exists info (.single channel)
  .ok (d.set_current current channel s)

/-- Embeds `GenericPSU.get_current` (src/ABC/PSU.py lines 183-194). -/
def GenericPSU.get_current {σ : Type} (d : PSUDriver σ) (info : DeviceInfo)
    (channel : Channel) (s : σ) : Except PyErr (ℚ × List String) := do
  let _ ← GenericDevice.check_channel_exists info (.single channel)
  .ok (d.get_current channel s)

/-- Embeds `GenericPSU.set_voltage` (src/ABC/PSU.py lines 207-218). -/
def GenericPSU.set_voltage {σ : Type} (d : PSUDriver σ) (info : DeviceInfo)
    (voltage : ℚ) (channel : Channel) (s : σ) : Except PyErr (σ × List String) := do
  let _ ← GenericDevice.check_channel_exists info (.single channel)
  .ok (d.set_voltage voltage channel s)

/-- Embeds `GenericPSU.get_voltage` (src/ABC/PSU.py lines 230-242). -/
def GenericPSU.get_voltage {σ : Type} (d : PSUDriver σ) (info : DeviceInfo)
    (channel : Channel) (s : σ) : Except PyErr (ℚ × List String) := do
  let _ ← GenericDevice.check_channel_exists info (.single channel)
  .ok (d.get_voltage channel s)

/-- Embeds `GenericPSU.measure` (src/ABC/PSU.py lines 293-307). -/
def GenericPSU.measure {σ : Type} (d : PSUDriver σ) (info : DeviceInfo)
    (measure_type : MeasureType) (channel : Channel) (s : σ) :
    Except PyErr (ℚ × List String) := do
  let _ ← GenericDevice.check_channel_exists info (.single channel)
  .ok (d.measure measure_type channel s)

/-- Embeds `GenericPSU.set_remote_sense` (src/ABC/PSU.py lines 256-290):
with no driver override the default `_set_remote_sense` body calls
`self._raise_warning(UnimplementedOptionalMethod("_set_remote_sense()"))`. -/
def GenericPSU.set_remote_sense {σ : Type} (d : PSUDriver σ) (info : DeviceInfo)
    (channel : Channel) (state : State) (s : σ) : Except PyErr (σ × List String) := do
  let _ ← GenericDevice.check_channel_exists info (.single channel)
  match d.set_remote_sense_ov with
  | some f => .ok (f channel state s)
  | none => do
    let _ ← call_raise_warning "UnimplementedOptionalMethod(_set_remote_sense())"
    .ok (s, [])

/-- Embeds `GenericPSU.set_ovp` (src/ABC/PSU.py lines 324-364): with no
driver override the default `_set_ovp` calls `self._raise_warning(...)`
and then raises `UnimplementedSafetyCriticalMethod` for voltage > 50. -/
def GenericPSU.set_ovp {σ : Type} (d : PSUDriver σ) (info : DeviceInfo)
    (voltage : ℚ) (channel : Channel) (s : σ) : Except PyErr (σ × List String) := do
  let _ ← GenericDevice.check_channel_exists info (.single channel)
  match d.set_ovp_ov with
  | some f => .ok (f voltage channel s)
  | none => do
    let _ ← call_raise_warning "UnimplementedOptionalMethod(_set_ovp())"
    if voltage > 50 then
      .error (.UnimplementedSafetyCriticalMethod "set_ovp()")
    else
      .ok (s, [])

/-- Embeds `GenericPSU.set_ocp` (src/ABC/PSU.py lines 366-424): with no
driver override the default `_set_ocp` calls `self._raise_warning(...)`
and then raises `UnimplementedSafetyCriticalMethod` for current > 0.01. -/
def GenericPSU.set_ocp {σ : Type} (d : PSUDriver σ) (info : DeviceInfo)
    (current : ℚ) (channel : Channel) (s : σ) : Except PyErr (σ × List String) := do
  let _ ← GenericDevice.check_channel_exists info (.single channel)
  match d.set_ocp_ov with
  | some f => .ok (f current channel s)
  | none => do
    let _ ← call_raise_warning "UnimplementedOptionalMethod(_set_ovp())"
    if current > 1 / 100 then
      .error (.UnimplementedSafetyCriticalMethod "set_ocp()")
    else
      .ok (s, [])

/-! ### src/ABC/SCOPE.py — `GenericScope` (channel-taking wrappers) -/

/-- The protected primitives of a concrete oscilloscope driver that the
channel-taking public wrappers of src/ABC/SCOPE.py dispatch to. -/
structure ScopeDriver (σ : Type) where
  enable_channels : ChannelArg → Bool → σ → σ × List String
  disable_channels : ChannelArg → Bool → σ → σ × List String
  set_vertical_offset : ℚ → ChannelArg → σ → Bool × σ × List String
  set_vertical_scale : VDiv → ChannelArg → σ → Bool × σ × List String
  measure : Stats → Channel → σ → ℚ × σ × List String

/-- Embeds `GenericScope.enable_channels` (src/ABC/SCOPE.py lines 51-62). -/
def GenericScope.enable_channels {σ : Type} (d : ScopeDriver σ) (info : DeviceInfo)
    (channel : ChannelArg) (disable_unlisted : Bool) (s : σ) :
    Except PyErr (σ × List String) := do
  let _ ← GenericDevice.check_channel_exists info channel
  .ok (d.enable_channels channel disable_unlisted s)

/-- Embeds `GenericScope.disable_channels` (src/ABC/SCOPE.py lines 69-80). -/
def GenericScope.disable_channels {σ : Type} (d : ScopeDriver σ) (info : DeviceInfo)
    (channel : ChannelArg) (enable_unlisted : Bool) (s : σ) :
    Except PyErr (σ × List String) := do
  let _ ← GenericDevice.check_channel_exists info channel
  .ok (d.disable_channels channel enable_unlisted s)

/-- Embeds `GenericScope.set_vertical_offset` (src/ABC/SCOPE.py lines
88-101). -/
def GenericScope.set_vertical_offset {σ : Type} (d : ScopeDriver σ) (info : DeviceInfo)
    (offset : ℚ) (channel : ChannelArg) (s : σ) :
    Except PyErr (Bool × σ × List String) := do
  let _ ← GenericDevice.check_channel_exists info channel
  .ok (d.set_vertical_offset offset channel s)

/-- Embeds `GenericScope.set_vertical_scale` (src/ABC/SCOPE.py lines
109-122). -/
def GenericScope.set_vertical_scale {σ : Type} (d : ScopeDriver σ) (info : DeviceInfo)
    (scale : VDiv) (channel : ChannelArg) (s : σ) :
    Except PyErr (Bool × σ × List String) := do
  let _ ← GenericDevice.check_channel_exists info channel
  .ok (d.set_vertical_scale scale channel s)

/-- Embeds `GenericScope.measure` (src/ABC/SCOPE.py lines 150-162). -/
def GenericScope.measure {σ : Type} (d : ScopeDriver σ) (info : DeviceInfo)
    (stat : Stats) (channel : Channel) (s : σ) :
    Except PyErr (ℚ × σ × List String) := do
  let _ ← GenericDevice.check_channel_exists info (.single channel)
  .ok (d.measure stat channel s)

/-! ### src/lab_assistant.py — the public setup surface -/

/-- The `DeviceConnection(...)` construction step of
`LabAssistant._create_device` (src/lab_assistant.py line 104): the
connection type is the constant `ConnectionType.RAW`. -/
def LabAssistant.create_device_connection (resource : String) (kwargs : Kwargs) :
    Except PyErr ConnectionInfo :=
  DeviceConnection.mkInfo resource ConnectionType.RAW kwargs

/-- Embeds the connection construction of `LabAssistant.setup_psu`
(src/lab_assistant.py lines 24-37 via `_create_device`). -/
def LabAssistant.setup_psu_connection (resource : String) (kwargs : Kwargs) :
    Except PyErr ConnectionInfo :=
  LabAssistant.create_device_connection resource kwargs

/-- Embeds the connection construction of `LabAssistant.setup_eload`
(src/lab_assistant.py lines 39-52 via `_create_device`). -/
def LabAssistant.setup_eload_connection (resource : String) (kwargs : Kwargs) :
    Except PyErr ConnectionInfo :=
  LabAssistant.create_device_connection resource kwargs

/-- Embeds the connection construction of `LabAssistant.setup_scope`
(src/lab_assistant.py lines 54-67 via `_create_device`). -/
def LabAssistant.setup_scope_connection (resource : String) (kwargs : Kwargs) :
    Except PyErr ConnectionInfo :=
  LabAssistant.create_device_connection resource kwargs

/-- Embeds the connection construction of `LabAssistant.setup_dmm`
(src/lab_assistant.py lines 69-82 via `_create_device`). -/
def LabAssistant.setup_dmm_connection (resource : String) (kwargs : Kwargs) :
    Except PyErr ConnectionInfo :=
  LabAssistant.create_device_connection resource kwargs

/-! ### A conforming electronic-load driver over an explicit device state

The concrete drivers' SCPI tables are out of core scope (spec §1); what the
category contract relies on is that each protected primitive performs its
nominal effect on the instrument.  `conformingEload` realises the
primitives as state updates on an explicit per-channel device state, with
the raw `_reset_device` primitive left completely arbitrary — exactly the
quantification the Load-reset claim is about.  Its `measure` issues the
query the Siglent SDL1020X-E driver sends
(src/config/Electronic_Load/siglent_sdl1020xe.py lines 245-260). -/

/-- Physical state of one electronic-load channel. -/
structure EloadChState where
  output : State := State.OFF
  mode : EloadMode := EloadMode.UNDEFINED
  load : ℚ := 0
  sense : State := State.OFF
deriving DecidableEq, Repr

/-- Physical state of an electronic load: one `EloadChState` per channel. -/
def EloadState : Type := Channel → EloadChState

/-- Update the state of one channel, leaving the others untouched. -/
def updateCh (s : EloadState) (ch : Channel) (f : EloadChState → EloadChState) :
    EloadState :=
  fun c => if c = ch then f (s c) else s c

/-- A conforming driver: every primitive performs its nominal effect on the
device state; `raw` is the driver's arbitrary `_reset_device`. -/
def conformingEload (raw : EloadState → EloadState × List String) :
    EloadDriver EloadState where
  reset_raw := raw
  enable_output := fun ch s =>
    (updateCh s ch fun c => { c with output := State.ON }, ["INP ON"])
  disable_output := fun ch s =>
    (updateCh s ch fun c => { c with output := State.OFF }, ["INP OFF"])
  get_output_state := fun ch s => ((s ch).output, ["INP?"])
  set_load := fun mode value ch s =>
    (updateCh s ch fun c => { c with mode := mode, load := value }, ["FUNC LEV"])
  set_mode := fun mode ch s =>
    (updateCh s ch fun c => { c with mode := mode }, ["FUNC"])
  get_mode := fun ch s => ((s ch).mode, ["FUNC?"])
  get_load := fun ch s => ((s ch).load, ["LEV?"])
  set_remote_sense := fun st ch s =>
    (updateCh s ch fun c => { c with sense := st }, ["SENS"])
  set_slew_rate := fun _ rate _ s => (rate, s, ["SLEW"])
  measure := fun measure_type _ s =>
    (0, s, [match measure_type with
            | .VOLTAGE => "MEAS:VOLT?"
            | .CURRENT => "MEAS:CURR?"
            | _ => "MEAS:POW?"])

/-! ### Helper lemmas -/

theorem updateCh_self (s : EloadState) (ch : Channel) (f : EloadChState → EloadChState) :
    updateCh s ch f ch = f (s ch) := by
  simp [updateCh]

theorem updateCh_ne (s : EloadState) (ch : Channel) (f : EloadChState → EloadChState)
    (c : Channel) (h : c ≠ ch) : updateCh s ch f c = s c := by
  simp [updateCh, h]

/-- The channel-check loop accepts a list of available channels. -/
theorem checkChannelLoop_ok (info : DeviceInfo) (l : List Channel)
    (h : ∀ c ∈ l, info.available_channels.contains c = true) :
    checkChannelLoop info l = .ok true := by
  induction l with
  | nil => rfl
  | cons c t ih =>
    have hc : info.available_channels.contains c = true := h c (by simp)
    simp only [checkChannelLoop]
    rw [if_pos hc]
    exact ih fun x hx => h x (List.mem_cons_of_mem c hx)

/-- The channel-check loop raises `DeviceChannelError` as soon as the list
holds a channel outside `available_channels`. -/
theorem checkChannelLoop_err (info : DeviceInfo) (l : List Channel)
    (h : ∃ c ∈ l, info.available_channels.contains c = false) :
    checkChannelLoop info l =
      .error (.DeviceChannelError ("Channel does not exist on this device. " ++ info.model)) := by
  induction l with
  | nil => simp at h
  | cons c t ih =>
    simp only [checkChannelLoop]
    by_cases hc : info.available_channels.contains c = true
    · rw [if_pos hc]
      apply ih
      rcases h with ⟨x, hx, hxf⟩
      rcases List.mem_cons.mp hx with rfl | hxt
      · rw [hc] at hxf
        exact Bool.noConfusion hxf
      · exact ⟨x, hxt, hxf⟩
    · rw [if_neg hc]

/-- The single-channel check raises `DeviceChannelError` on a channel
outside `available_channels`. -/
theorem check_single_err (info : DeviceInfo) (ch : Channel)
    (h : info.available_channels.contains ch = false) :
    GenericDevice.check_channel_exists info (.single ch) =
      .error (.DeviceChannelError ("Channel does not exist on this device. " ++ info.model)) := by
  unfold GenericDevice.check_channel_exists GenericDevice.convert_channel_type
  exact checkChannelLoop_err info [ch] ⟨ch, by simp, h⟩

/-- The single-channel check accepts a channel in `available_channels`. -/
theorem check_single_ok (info : DeviceInfo) (ch : Channel)
    (h : info.available_channels.contains ch = true) :
    GenericDevice.check_channel_exists info (.single ch) = .ok true := by
  unfold GenericDevice.check_channel_exists GenericDevice.convert_channel_type
  exact checkChannelLoop_ok info [ch] (by simpa using h)

/-- The fold inside `pyMaxByLen` yields the seed or a list element. -/
theorem foldlMax_mem : ∀ (t : List String) (a : String),
    t.foldl (fun acc x => if acc.length < x.length then x else acc) a ∈ a :: t := by
  intro t
  induction t with
  | nil => intro a; simp
  | cons b t ih =>
    intro a
    simp only [List.foldl_cons]
    by_cases hab : a.length < b.length
    · rw [if_pos hab]
      exact List.mem_cons_of_mem a (ih b)
    · rw [if_neg hab]
      rcases List.mem_cons.mp (ih a) with h1 | h1
      · simp [h1]
      · simp [List.mem_cons, h1]

/-- The fold inside `pyMaxByLen` dominates the seed and every element. -/
theorem foldlMax_ge : ∀ (t : List String) (a : String),
    a.length ≤ (t.foldl (fun acc x => if acc.length < x.length then x else acc) a).length ∧
    ∀ m ∈ t, m.length ≤ (t.foldl (fun acc x => if acc.length < x.length then x else acc) a).length := by
  intro t
  induction t with
  | nil => intro a; simp
  | cons b t ih =>
    intro a
    simp only [List.foldl_cons]
    have hstep := ih (if a.length < b.length then b else a)
    have ha : a.length ≤ (if a.length < b.length then b else a).length := by
      by_cases hab : a.length < b.length
      · rw [if_pos hab]; exact le_of_lt hab
      · rw [if_neg hab]
    have hb : b.length ≤ (if a.length < b.length then b else a).length := by
      by_cases hab : a.length < b.length
      · rw [if_pos hab]
      · rw [if_neg hab]; exact le_of_not_lt hab
    refine ⟨le_trans ha hstep.1, ?_⟩
    intro m hm
    rcases List.mem_cons.mp hm with rfl | hmt
    · exact le_trans hb hstep.1
    · exact hstep.2 m hmt

/-- Python's `max(l, key=len)` returns an element of `l`. -/
theorem pyMaxByLen_mem (l : List String) (h : l ≠ []) : pyMaxByLen l ∈ l := by
  match l with
  | [] => exact absurd rfl h
  | a :: t => exact foldlMax_mem t a

/-- Python's `max(l, key=len)` returns an element of maximal length. -/
theorem pyMaxByLen_ge (l : List String) (m : String) (hm : m ∈ l) :
    m.length ≤ (pyMaxByLen l).length := by
  match l with
  | [] => simp at hm
  | a :: t =>
    rcases List.mem_cons.mp hm with rfl | hmt
    · exact (foldlMax_ge t m).1
    · exact (foldlMax_ge t a).2 m hmt

/-- Composing two updates of the same channel. -/
theorem updateCh_comp (s : EloadState) (ch : Channel)
    (f g : EloadChState → EloadChState) :
    updateCh (updateCh s ch f) ch g = updateCh s ch (fun c => g (f c)) := by
  funext c
  by_cases h : c = ch
  · simp [updateCh, h]
  · simp [updateCh, h]

/-- The per-channel state the generic Load reset drives every available
channel to: output off, constant-resistance mode at 10 kΩ, remote sense
off. -/
def eloadChDefault : EloadChState :=
  { output := State.OFF, mode := EloadMode.CR, load := 10000, sense := State.OFF }

theorem eload_disable_output_ok (raw : EloadState → EloadState × List String)
    (info : DeviceInfo) (ch : Channel) (s : EloadState)
    (hch : info.available_channels.contains ch = true) :
    GenericEload.disable_output (conformingEload raw) info ch s =
      .ok (updateCh s ch fun c => { c with output := State.OFF }, ["INP OFF"]) := by
  unfold GenericEload.disable_output
  rw [check_single_ok info ch hch]
  rfl

theorem eload_set_load_ok (raw : EloadState → EloadState × List String)
    (info : DeviceInfo) (mode : EloadMode) (value : ℚ) (ch : Channel) (s : EloadState)
    (hch : info.available_channels.contains ch = true) :
    GenericEload.set_load (conformingEload raw) info mode value ch s =
      .ok (updateCh s ch fun c => { c with mode := mode, load := value }, ["FUNC LEV"]) := by
  unfold GenericEload.set_load
  rw [check_single_ok info ch hch]
  rfl

theorem eload_set_remote_sense_off_ok (raw : EloadState → EloadState × List String)
    (info : DeviceInfo) (ch : Channel) (s : EloadState)
    (hch : info.available_channels.contains ch = true) :
    GenericEload.set_remote_sense (conformingEload raw) info State.OFF ch s =
      .ok (updateCh s ch fun c => { c with sense := State.OFF }, ["INP?", "SENS"]) := by
  unfold GenericEload.set_remote_sense GenericEload.get_output_state
  simp only [check_single_ok info ch hch]
  rfl

/-- Reducing a bind whose first component is a success. -/
theorem except_bind_ok {ε α β : Type} (a : α) (f : α → Except ε β) :
    (Except.ok a : Except ε α) >>= f = f a := rfl

/-- One iteration of the generic Load reset loop drives the channel to the
default state and issues the four transport commands of the sequence. -/
theorem eloadResetLoop_cons (raw : EloadState → EloadState × List String)
    (info : DeviceInfo) (ch : Channel) (chs : List Channel) (s : EloadState)
    (tr : List String) (hch : info.available_channels.contains ch = true) :
    eloadResetLoop (conformingEload raw) info (ch :: chs) s tr =
      eloadResetLoop (conformingEload raw) info chs
        (updateCh s ch fun _ => eloadChDefault)
        (((tr ++ ["INP OFF"]) ++ ["FUNC LEV"]) ++ ["INP?", "SENS"]) := by
  simp only [eloadResetLoop]
  rw [eload_disable_output_ok raw info ch s hch]
  simp only [except_bind_ok]
  rw [eload_set_load_ok raw info EloadMode.CR 10000 ch _ hch]
  simp only [except_bind_ok]
  rw [eload_set_remote_sense_off_ok raw info ch _ hch]
  simp only [except_bind_ok]
  rw [updateCh_comp, updateCh_comp]
  rfl

/-- Bridging list membership and `List.contains` for channels. -/
theorem contains_of_mem_ch {c : Channel} {l : List Channel} (hc : c ∈ l) :
    l.contains c = true := by
  simpa using hc

/-- The generic Load reset loop succeeds on any sublist of the available
channels, drives every listed channel to `eloadChDefault`, leaves all other
channels untouched, and only appends to the trace. -/
theorem eloadResetLoop_spec (raw : EloadState → EloadState × List String)
    (info : DeviceInfo) :
    ∀ (chs : List Channel) (s : EloadState) (tr : List String),
    (∀ c ∈ chs, info.available_channels.contains c = true) →
    ∃ s2 tr2, eloadResetLoop (conformingEload raw) info chs s tr = .ok (s2, tr2) ∧
      (∀ c ∈ chs, s2 c = eloadChDefault) ∧
      (∀ c, c ∉ chs → s2 c = s c) ∧
      ∃ ext, tr2 = tr ++ ext := by
  intro chs
  induction chs with
  | nil =>
    intro s tr _
    exact ⟨s, tr, rfl, by simp, fun c _ => rfl, [], by simp⟩
  | cons ch chs ih =>
    intro s tr h
    have hch := h ch (by simp)
    rw [eloadResetLoop_cons raw info ch chs s tr hch]
    obtain ⟨s2, tr2, heq, hin, hout, ext, hext⟩ :=
      ih (updateCh s ch fun _ => eloadChDefault) _
        (fun c hc => h c (List.mem_cons_of_mem ch hc))
    refine ⟨s2, tr2, heq, ?_, ?_, ?_⟩
    · intro c hc
      by_cases hcs : c ∈ chs
      · exact hin c hcs
      · have hceq : c = ch := by
          rcases List.mem_cons.mp hc with h1 | h1
          · exact h1
          · exact absurd h1 hcs
        subst hceq
        rw [hout c hcs]
        simp [updateCh]
    · intro c hc
      have hne : c ≠ ch := fun he => hc (he ▸ List.mem_cons_self ch chs)
      have hnc : c ∉ chs := fun hm => hc (List.mem_cons_of_mem ch hm)
      rw [hout c hnc, updateCh_ne s ch _ c hne]
    · refine ⟨["INP OFF"] ++ ["FUNC LEV"] ++ ["INP?", "SENS"] ++ ext, ?_⟩
      rw [hext]
      simp [List.append_assoc]

/-- Claim C3 — for every Load device with a conforming driver and an
arbitrary raw `_reset_device` primitive, after `reset_device()` every
available channel reads output `OFF`, mode `CR`, load `10000`, and has
remote sense `OFF`; the generic sequence's transport commands come after
the raw reset's. -/
theorem eload_reset_device_drives_defaults (raw : EloadState → EloadState × List String)
    (info : DeviceInfo) (s : EloadState) (ch : Channel)
    (hch : info.available_channels.contains ch = true) :
    ∃ s2 tr, GenericEload.reset_device (conformingEload raw) info s = .ok (s2, tr) ∧
      GenericEload.get_output_state (conformingEload raw) info ch s2 =
        .ok (State.OFF, ["INP?"]) ∧
      GenericEload.get_mode (conformingEload raw) info ch s2 =
        .ok (EloadMode.CR, ["FUNC?"]) ∧
      GenericEload.get_load (conformingEload raw) info ch s2 =
        .ok ((10000 : ℚ), ["LEV?"]) ∧
      (s2 ch).sense = State.OFF ∧
      ∃ rest, tr = (raw s).2 ++ rest := by
  unfold GenericEload.reset_device
  obtain ⟨s2, tr2, heq, hin, hout, ext, hext⟩ :=
    eloadResetLoop_spec raw info info.available_channels (raw s).1 (raw s).2
      (fun c hc => contains_of_mem_ch hc)
  have hchmem : ch ∈ info.available_channels := by simpa using hch
  have hdef := hin ch hchmem
  refine ⟨s2, tr2, heq, ?_, ?_, ?_, ?_, ⟨ext, hext⟩⟩
  · unfold GenericEload.get_output_state
    rw [check_single_ok info ch hch]
    simp only [except_bind_ok]
    simp [conformingEload, hdef, eloadChDefault]
  · unfold GenericEload.get_mode
    rw [check_single_ok info ch hch]
    simp only [except_bind_ok]
    simp [conformingEload, hdef, eloadChDefault]
  · unfold GenericEload.get_load
    rw [check_single_ok info ch hch]
    simp only [except_bind_ok]
    simp [conformingEload, hdef, eloadChDefault]
  · rw [hdef]
    rfl

/-- Witness for the Load-reset claim: a one-channel device at an arbitrary
starting state, with a raw reset that scrambles the state. -/
theorem eload_reset_device_drives_defaults_witness :
    ∃ s2 tr,
      GenericEload.reset_device
        (conformingEload fun s =>
          (updateCh s Channel.CH1 fun c => { c with output := State.ON, load := 5 }, ["*RST"]))
        { available_channels := [Channel.CH1] }
        (fun _ => { output := State.ON, mode := EloadMode.CC, load := 3, sense := State.ON }) =
        .ok (s2, tr) ∧
      GenericEload.get_output_state
        (conformingEload fun s =>
          (updateCh s Channel.CH1 fun c => { c with output := State.ON, load := 5 }, ["*RST"]))
        { available_channels := [Channel.CH1] } Channel.CH1 s2 =
        .ok (State.OFF, ["INP?"]) ∧
      GenericEload.get_mode
        (conformingEload fun s =>
          (updateCh s Channel.CH1 fun c => { c with output := State.ON, load := 5 }, ["*RST"]))
        { available_channels := [Channel.CH1] } Channel.CH1 s2 =
        .ok (EloadMode.CR, ["FUNC?"]) ∧
      GenericEload.get_load
        (conformingEload fun s =>
          (updateCh s Channel.CH1 fun c => { c with output := State.ON, load := 5 }, ["*RST"]))
        { available_channels := [Channel.CH1] } Channel.CH1 s2 =
        .ok ((10000 : ℚ), ["LEV?"]) ∧
      (s2 Channel.CH1).sense = State.OFF ∧
      ∃ rest, tr = ["*RST"] ++ rest := by
  obtain ⟨s2, tr, h⟩ := eload_reset_device_drives_defaults
    (fun s => (updateCh s Channel.CH1 fun c => { c with output := State.ON, load := 5 }, ["*RST"]))
    { available_channels := [Channel.CH1] }
    (fun _ => { output := State.ON, mode := EloadMode.CC, load := 3, sense := State.ON })
    Channel.CH1 (by decide)
  exact ⟨s2, tr, h⟩

/-- The `DeviceChannelError` raised by `_check_channel_exists`
(src/generic_device.py line 512). -/
def chanErr (info : DeviceInfo) : PyErr :=
  .DeviceChannelError ("Channel does not exist on this device. " ++ info.model)

/-- Claim C1 (amended) — every public channel-taking wrapper of the Load,
PSU and Scope categories other than `GenericEload.measure` raises
`DeviceChannelError`, dispatching nothing to the driver (hence no transport
I/O), when its channel argument (or a channel list containing one) lies
outside the descriptor's `available_channels`. -/
theorem channel_guard_all_but_eload_measure (σ : Type)
    (dE : EloadDriver σ) (dP : PSUDriver σ) (dS : ScopeDriver σ)
    (info : DeviceInfo) (s : σ) (ch : Channel)
    (hch : info.available_channels.contains ch = false) :
    (GenericEload.enable_output dE info ch s = .error (chanErr info)) ∧
    (GenericEload.disable_output dE info ch s = .error (chanErr info)) ∧
    (∀ st, GenericEload.set_output_state dE info st ch s = .error (chanErr info)) ∧
    (GenericEload.get_output_state dE info ch s = .error (chanErr info)) ∧
    (∀ mode v, GenericEload.set_load dE info mode v ch s = .error (chanErr info)) ∧
    (∀ mode, GenericEload.set_mode dE info mode ch s = .error (chanErr info)) ∧
    (GenericEload.get_mode dE info ch s = .error (chanErr info)) ∧
    (GenericEload.get_load dE info ch s = .error (chanErr info)) ∧
    (∀ st, GenericEload.set_remote_sense dE info st ch s = .error (chanErr info)) ∧
    (∀ sr v, GenericEload.set_slew_rate dE info sr v ch s = .error (chanErr info)) ∧
    (GenericPSU.enable_output dP info ch s = .error (chanErr info)) ∧
    (GenericPSU.disable_output dP info ch s = .error (chanErr info)) ∧
    (∀ st, GenericPSU.set_output_state dP info st ch s = .error (chanErr info)) ∧
    (GenericPSU.get_output_state dP info ch s = .error (chanErr info)) ∧
    (∀ v, GenericPSU.set_current dP info v ch s = .error (chanErr info)) ∧
    (GenericPSU.get_current dP info ch s = .error (chanErr info)) ∧
    (∀ v, GenericPSU.set_voltage dP info v ch s = .error (chanErr info)) ∧
    (GenericPSU.get_voltage dP info ch s = .error (chanErr info)) ∧
    (∀ st, GenericPSU.set_remote_sense dP info ch st s = .error (chanErr info)) ∧
    (∀ mt, GenericPSU.measure dP info mt ch s = .error (chanErr info)) ∧
    (∀ v, GenericPSU.set_ovp dP info v ch s = .error (chanErr info)) ∧
    (∀ v, GenericPSU.set_ocp dP info v ch s = .error (chanErr info)) ∧
    (∀ b, GenericScope.enable_channels dS info (.single ch) b s = .error (chanErr info)) ∧
    (∀ b, GenericScope.disable_channels dS info (.single ch) b s = .error (chanErr info)) ∧
    (∀ v, GenericScope.set_vertical_offset dS info v (.single ch) s = .error (chanErr info)) ∧
    (∀ sc, GenericScope.set_vertical_scale dS info sc (.single ch) s = .error (chanErr info)) ∧
    (∀ st, GenericScope.measure dS info st ch s = .error (chanErr info)) ∧
    (∀ (chs : List Channel) (b : Bool), ch ∈ chs →
      GenericScope.enable_channels dS info (.listed chs) b s = .error (chanErr info)) := by
  have he := check_single_err info ch hch
  refine ⟨?_, ?_, ?_, ?_, ?_, ?_, ?_, ?_, ?_, ?_, ?_, ?_, ?_, ?_, ?_, ?_, ?_, ?_, ?_, ?_,
    ?_, ?_, ?_, ?_, ?_, ?_, ?_, ?_⟩
  · unfold GenericEload.enable_output; rw [he]; rfl
  · unfold GenericEload.disable_output; rw [he]; rfl
  · intro st; unfold GenericEload.set_output_state; rw [he]; rfl
  · unfold GenericEload.get_output_state; rw [he]; rfl
  · intro mode v; unfold GenericEload.set_load; rw [he]; rfl
  · intro mode; unfold GenericEload.set_mode; rw [he]; rfl
  · unfold GenericEload.get_mode; rw [he]; rfl
  · unfold GenericEload.get_load; rw [he]; rfl
  · intro st; unfold GenericEload.set_remote_sense; rw [he]; rfl
  · intro sr v; unfold GenericEload.set_slew_rate; rw [he]; rfl
  · unfold GenericPSU.enable_output; rw [he]; rfl
  · unfold GenericPSU.disable_output; rw [he]; rfl
  · intro st; unfold GenericPSU.set_output_state; rw [he]; rfl
  · unfold GenericPSU.get_output_state; rw [he]; rfl
  · intro v; unfold GenericPSU.set_current; rw [he]; rfl
  · unfold GenericPSU.get_current; rw [he]; rfl
  · intro v; unfold GenericPSU.set_voltage; rw [he]; rfl
  · unfold GenericPSU.get_voltage; rw [he]; rfl
  · intro st; unfold GenericPSU.set_remote_sense; rw [he]; rfl
  · intro mt; unfold GenericPSU.measure; rw [he]; rfl
  · intro v; unfold GenericPSU.set_ovp; rw [he]; rfl
  · intro v; unfold GenericPSU.set_ocp; rw [he]; rfl
  · intro b; unfold GenericScope.enable_channels; rw [he]; rfl
  · intro b; unfold GenericScope.disable_channels; rw [he]; rfl
  · intro v; unfold GenericScope.set_vertical_offset; rw [he]; rfl
  · intro sc; unfold GenericScope.set_vertical_scale; rw [he]; rfl
  · intro st; unfold GenericScope.measure; rw [he]; rfl
  · intro chs b hmem
    unfold GenericScope.enable_channels GenericDevice.check_channel_exists
      GenericDevice.convert_channel_type
    rw [checkChannelLoop_err info chs ⟨ch, hmem, hch⟩]
    rfl

/-- Counterexample to claim C1 as stated: `GenericEload.measure` with a
channel outside `available_channels` raises nothing and the driver's
`_measure` transport query (the Siglent SDL1020X-E sends `MEAS:VOLT?`)
reaches the connection. -/
theorem eload_measure_skips_channel_check :
    ({ available_channels := [Channel.CH1] } : DeviceInfo).available_channels.contains
      Channel.CH2 = false ∧
    GenericEload.measure (conformingEload fun s => (s, []))
      { available_channels := [Channel.CH1] } MeasureType.VOLTAGE Channel.CH2
      (fun _ => ({} : EloadChState)) =
      .ok (0, fun _ => ({} : EloadChState), ["MEAS:VOLT?"]) ∧
    (["MEAS:VOLT?"] : List String) ≠ [] := by
  exact ⟨by decide, rfl, by decide⟩

/-- Witness for the amended channel-guard claim at a concrete one-channel
device and trivial drivers. -/
theorem channel_guard_all_but_eload_measure_witness :
    GenericEload.enable_output
      (⟨fun s => (s, []), fun _ s => (s, []), fun _ s => (s, []),
        fun _ _ => (State.OFF, []), fun _ _ _ s => (s, []), fun _ _ s => (s, []),
        fun _ _ => (EloadMode.CR, []), fun _ _ => (0, []), fun _ _ s => (s, []),
        fun _ _ _ s => (0, s, []), fun _ _ s => (0, s, [])⟩ : EloadDriver Unit)
      { available_channels := [Channel.CH1] } Channel.CH2 () =
      .error (chanErr { available_channels := [Channel.CH1] }) ∧
    GenericPSU.set_ovp
      (⟨fun _ s => (s, []), fun _ s => (s, []), fun _ _ => (State.OFF, []),
        fun _ _ s => (s, []), fun _ _ => (0, []), fun _ _ s => (s, []),
        fun _ _ => (0, []), fun _ _ _ => (0, []), none, none, none⟩ : PSUDriver Unit)
      { available_channels := [Channel.CH1] } 60 Channel.CH2 () =
      .error (chanErr { available_channels := [Channel.CH1] }) ∧
    GenericScope.enable_channels
      (⟨fun _ _ s => (s, []), fun _ _ s => (s, []), fun _ _ s => (true, s, []),
        fun _ _ s => (true, s, []), fun _ _ s => (0, s, [])⟩ : ScopeDriver Unit)
      { available_channels := [Channel.CH1] } (.listed [Channel.CH1, Channel.CH2]) false () =
      .error (chanErr { available_channels := [Channel.CH1] }) := by
  have h := channel_guard_all_but_eload_measure Unit
    (⟨fun s => (s, []), fun _ s => (s, []), fun _ s => (s, []),
      fun _ _ => (State.OFF, []), fun _ _ _ s => (s, []), fun _ _ s => (s, []),
      fun _ _ => (EloadMode.CR, []), fun _ _ => (0, []), fun _ _ s => (s, []),
      fun _ _ _ s => (0, s, []), fun _ _ s => (0, s, [])⟩ : EloadDriver Unit)
    (⟨fun _ s => (s, []), fun _ s => (s, []), fun _ _ => (State.OFF, []),
      fun _ _ s => (s, []), fun _ _ => (0, []), fun _ _ s => (s, []),
      fun _ _ => (0, []), fun _ _ _ => (0, []), none, none, none⟩ : PSUDriver Unit)
    (⟨fun _ _ s => (s, []), fun _ _ s => (s, []), fun _ _ s => (true, s, []),
      fun _ _ s => (true, s, []), fun _ _ s => (0, s, [])⟩ : ScopeDriver Unit)
    { available_channels := [Channel.CH1] } () Channel.CH2 (by decide)
  refine ⟨h.1, ?_, ?_⟩
  · exact (h.2.2.2.2.2.2.2.2.2.2.2.2.2.2.2.2.2.2.2.2.1) 60
  · exact (h.2.2.2.2.2.2.2.2.2.2.2.2.2.2.2.2.2.2.2.2.2.2.2.2.2.2.2)
      [Channel.CH1, Channel.CH2] false (by decide)

/-- Claim C2 (what the code actually does) — on a PSU whose driver does not
override the optional protection primitives, `set_remote_sense`, `set_ovp`
and `set_ocp` with a valid channel all raise
`AttributeError("_raise_warning")`: the warning the defaults try to issue
goes through a method that does not exist, so neither the
`UnimplementedOptionalMethod` warning nor (for over-ceiling values) the
`UnimplementedSafetyCriticalMethod` error is ever reached. -/
theorem psu_optional_methods_raise_attribute_error (σ : Type) (d : PSUDriver σ)
    (info : DeviceInfo) (ch : Channel) (st : State) (voltage current : ℚ) (s : σ)
    (hrs : d.set_remote_sense_ov = none) (hovp : d.set_ovp_ov = none)
    (hocp : d.set_ocp_ov = none)
    (hch : info.available_channels.contains ch = true) :
    GenericPSU.set_remote_sense d info ch st s = .error (.AttributeError "_raise_warning") ∧
    GenericPSU.set_ovp d info voltage ch s = .error (.AttributeError "_raise_warning") ∧
    GenericPSU.set_ocp d info current ch s = .error (.AttributeError "_raise_warning") := by
  refine ⟨?_, ?_, ?_⟩
  · unfold GenericPSU.set_remote_sense
    rw [check_single_ok info ch hch]
    simp only [except_bind_ok]
    rw [hrs]
    rfl
  · unfold GenericPSU.set_ovp
    rw [check_single_ok info ch hch]
    simp only [except_bind_ok]
    rw [hovp]
    rfl
  · unfold GenericPSU.set_ocp
    rw [check_single_ok info ch hch]
    simp only [except_bind_ok]
    rw [hocp]
    rfl

/-- Witness for the `_raise_warning` divergence: a driver with no overrides,
`set_ovp` at 60 V (above the 50 V ceiling) on a valid channel. -/
theorem psu_optional_methods_raise_attribute_error_witness :
    GenericPSU.set_remote_sense
      (⟨fun _ s => (s, []), fun _ s => (s, []), fun _ _ => (State.OFF, []),
        fun _ _ s => (s, []), fun _ _ => (0, []), fun _ _ s => (s, []),
        fun _ _ => (0, []), fun _ _ _ => (0, []), none, none, none⟩ : PSUDriver Unit)
      { available_channels := [Channel.CH1] } Channel.CH1 State.ON () =
      .error (.AttributeError "_raise_warning") ∧
    GenericPSU.set_ovp
      (⟨fun _ s => (s, []), fun _ s => (s, []), fun _ _ => (State.OFF, []),
        fun _ _ s => (s, []), fun _ _ => (0, []), fun _ _ s => (s, []),
        fun _ _ => (0, []), fun _ _ _ => (0, []), none, none, none⟩ : PSUDriver Unit)
      { available_channels := [Channel.CH1] } 60 Channel.CH1 () =
      .error (.AttributeError "_raise_warning") ∧
    GenericPSU.set_ocp
      (⟨fun _ s => (s, []), fun _ s => (s, []), fun _ _ => (State.OFF, []),
        fun _ _ s => (s, []), fun _ _ => (0, []), fun _ _ s => (s, []),
        fun _ _ => (0, []), fun _ _ _ => (0, []), none, none, none⟩ : PSUDriver Unit)
      { available_channels := [Channel.CH1] } (2 / 100) Channel.CH1 () =
      .error (.AttributeError "_raise_warning") :=
  psu_optional_methods_raise_attribute_error Unit
    (⟨fun _ s => (s, []), fun _ s => (s, []), fun _ _ => (State.OFF, []),
      fun _ _ s => (s, []), fun _ _ => (0, []), fun _ _ s => (s, []),
      fun _ _ => (0, []), fun _ _ _ => (0, []), none, none, none⟩ : PSUDriver Unit)
    { available_channels := [Channel.CH1] } Channel.CH1 State.ON 60 (2 / 100) ()
    rfl rfl rfl (by decide)

/-- Claim C4 — with simulated hardware, `identify` touches the transport
never: with no forced driver it fails at once with the "what device should
we simulate?" `ValueError`; with a forced driver it returns it verbatim.
Both with an empty transport trace. -/
theorem identify_simulated_no_transport (info : ConnectionInfo)
    (registry : List DeviceClassE) (visa_device_present : Bool)
    (responses : Nat → Except Unit String) (user_input : String)
    (id_cmd : Option String) (hsim : info.simulated_hw = true) :
    (info.forced_driver = "none" →
      DeviceConnection.identify info registry visa_device_present responses user_input id_cmd =
        (.error (.ValueError
          "Simulated HW requires a forced driver to be set. What device should we simulate?"),
         [])) ∧
    (info.forced_driver ≠ "none" →
      DeviceConnection.identify info registry visa_device_present responses user_input id_cmd =
        (.ok info.forced_driver, [])) := by
  constructor
  · intro hf
    simp [DeviceConnection.identify, hsim, hf]
  · intro hf
    simp [DeviceConnection.identify, hsim, hf]

/-- Witness for simulated-identification: both the missing-driver error and
the forced-driver pass-through, with empty transport traces. -/
theorem identify_simulated_no_transport_witness :
    (DeviceConnection.identify
      { simulated_hw := true, forced_driver := "none" } [] false (fun _ => .error ()) "" none =
      (.error (.ValueError
        "Simulated HW requires a forced driver to be set. What device should we simulate?"),
       [])) ∧
    (DeviceConnection.identify
      { simulated_hw := true, forced_driver := "siglent_spd1168x" } [] false
      (fun _ => .error ()) "" none =
      (.ok "siglent_spd1168x", [])) := by
  constructor
  · exact (identify_simulated_no_transport
      { simulated_hw := true, forced_driver := "none" } [] false (fun _ => .error ()) "" none
      rfl).1 rfl
  · exact (identify_simulated_no_transport
      { simulated_hw := true, forced_driver := "siglent_spd1168x" } [] false
      (fun _ => .error ()) "" none rfl).2 (by decide)

/-- Claim C9 — `add_class` rejects a driver class whose
`device_info.manufacturer`/`model`, lower-cased, differ from the first/
second `_`-separated token of the class name (the class is not appended),
and appends a class whose tokens match. -/
theorem add_class_registration_contract (registry : List DeviceClassE)
    (device_class : DeviceClassE) (tok0 tok1 : String) (rest : List String)
    (hsplit : pySplitUnderscore device_class.name = tok0 :: tok1 :: rest) :
    (pyLower device_class.info.manufacturer ≠ pyLower tok0 →
      DeviceRegistry.add_class registry device_class =
        .error (.ValueError ("Manufacturer in device_info must match in class " ++
          device_class.name ++ "."))) ∧
    (pyLower device_class.info.manufacturer = pyLower tok0 →
      pyLower device_class.info.model ≠ pyLower tok1 →
      DeviceRegistry.add_class registry device_class =
        .error (.ValueError ("Model in device_info must match in class " ++
          device_class.name ++ "."))) ∧
    (pyLower device_class.info.manufacturer = pyLower tok0 →
      pyLower device_class.info.model = pyLower tok1 →
      DeviceRegistry.add_class registry device_class = .ok (registry ++ [device_class])) := by
  refine ⟨?_, ?_, ?_⟩
  · intro h
    unfold DeviceRegistry.add_class
    rw [hsplit]
    simp only [pyListGet, List.get?, except_bind_ok]
    rw [if_pos h]
  · intro h0 h1
    unfold DeviceRegistry.add_class
    rw [hsplit]
    simp only [pyListGet, List.get?, except_bind_ok]
    rw [if_neg (by simp [h0]), if_pos h1]
  · intro h0 h1
    unfold DeviceRegistry.add_class
    rw [hsplit]
    simp only [pyListGet, List.get?, except_bind_ok]
    rw [if_neg (by simp [h0]), if_neg (by simp [h1])]

/-- Witness for the registration contract: a matching and a mismatching
descriptor. -/
theorem add_class_registration_contract_witness :
    DeviceRegistry.add_class []
      { name := "siglent_spd1168x",
        info := { manufacturer := "Siglent", model := "SPD1168X" } } =
      .ok [{ name := "siglent_spd1168x",
             info := { manufacturer := "Siglent", model := "SPD1168X" } }] ∧
    DeviceRegistry.add_class []
      { name := "siglent_spd1168x",
        info := { manufacturer := "Siglent", model := "SPD1000" } } =
      .error (.ValueError ("Model in device_info must match in class " ++
        "siglent_spd1168x" ++ ".")) := by
  constructor
  · exact (add_class_registration_contract []
      { name := "siglent_spd1168x",
        info := { manufacturer := "Siglent", model := "SPD1168X" } }
      "siglent" "spd1168x" [] (by decide)).2.2 (by decide) (by decide)
  · exact (add_class_registration_contract []
      { name := "siglent_spd1168x",
        info := { manufacturer := "Siglent", model := "SPD1000" } }
      "siglent" "spd1168x" [] (by decide)).2.1 (by decide) (by decide)

/-- Claim C10 — every public setup entry point builds its connection with
`ConnectionType.RAW`, so the caller's resource string reaches the transport
unmodified; the Ethernet TCPIP-wrapping branch of `_define_port` and its
rejection of GPIB/USB/RS232 exist but are not reachable from the setup
surface. -/
theorem setup_surface_always_raw (resource : String) (kwargs : Kwargs) :
    (∃ i, LabAssistant.setup_psu_connection resource kwargs = .ok i ∧
      i.resource = resource ∧ i.connection_type = ConnectionType.RAW) ∧
    (∃ i, LabAssistant.setup_eload_connection resource kwargs = .ok i ∧
      i.resource = resource ∧ i.connection_type = ConnectionType.RAW) ∧
    (∃ i, LabAssistant.setup_scope_connection resource kwargs = .ok i ∧
      i.resource = resource ∧ i.connection_type = ConnectionType.RAW) ∧
    (∃ i, LabAssistant.setup_dmm_connection resource kwargs = .ok i ∧
      i.resource = resource ∧ i.connection_type = ConnectionType.RAW) ∧
    DeviceConnection.define_port resource ConnectionType.RAW = .ok resource ∧
    DeviceConnection.define_port resource ConnectionType.ETHERNET =
      .ok ("TCPIP::" ++ resource ++ "::INSTR") ∧
    DeviceConnection.define_port resource ConnectionType.GPIB =
      .error (.ValueError "Unsupported connection type") ∧
    DeviceConnection.define_port resource ConnectionType.USB =
      .error (.ValueError "Unsupported connection type") ∧
    DeviceConnection.define_port resource ConnectionType.RS232 =
      .error (.ValueError "Unsupported connection type") := by
  refine ⟨⟨_, rfl, rfl, rfl⟩, ⟨_, rfl, rfl, rfl⟩, ⟨_, rfl, rfl, rfl⟩, ⟨_, rfl, rfl, rfl⟩,
    rfl, rfl, rfl, rfl, rfl⟩

/-- Claim C5 — whenever at least one registered descriptor matches the
response, `get_registered_device` returns a matched `manufacturer_model`
name of maximal length; in particular, with both SDS1104X and SDS1104XE
registered, a response containing `sds1104xe` (after hyphen stripping)
selects the XE variant. -/
theorem get_registered_device_longest_match (registry : List DeviceClassE)
    (response : String) (hne : matchedDevices registry response ≠ []) :
    DeviceRegistry.get_registered_device registry response ∈
      matchedDevices registry response ∧
    (∀ m ∈ matchedDevices registry response,
      m.length ≤ (DeviceRegistry.get_registered_device registry response).length) ∧
    DeviceRegistry.get_registered_device
      [{ name := "siglent_sds1104x",
         info := { manufacturer := "Siglent", model := "SDS1104X" } },
       { name := "siglent_sds1104xe",
         info := { manufacturer := "Siglent", model := "SDS1104XE" } }]
      "Siglent Technologies,SDS1104X-E,SDL13GCQ6R1247,1.1.1.22\n" =
      "Siglent_SDS1104XE" := by
  have hie : (matchedDevices registry response).isEmpty = false := by
    rcases hm : matchedDevices registry response with _ | ⟨a, t⟩
    · exact absurd hm hne
    · rfl
  refine ⟨?_, ?_, ?_⟩
  · unfold DeviceRegistry.get_registered_device
    simp only [hie]
    simpa using pyMaxByLen_mem _ hne
  · intro m hm
    unfold DeviceRegistry.get_registered_device
    simp only [hie]
    simpa using pyMaxByLen_ge _ m hm
  · decide

/-- Witness for longest-match identification at the SDS1104X/SDS1104XE
registry. -/
theorem get_registered_device_longest_match_witness :
    matchedDevices
      [{ name := "siglent_sds1104x",
         info := { manufacturer := "Siglent", model := "SDS1104X" } },
       { name := "siglent_sds1104xe",
         info := { manufacturer := "Siglent", model := "SDS1104XE" } }]
      "Siglent Technologies,SDS1104X-E,SDL13GCQ6R1247,1.1.1.22\n" =
      ["Siglent_SDS1104X", "Siglent_SDS1104XE"] ∧
    DeviceRegistry.get_registered_device
      [{ name := "siglent_sds1104x",
         info := { manufacturer := "Siglent", model := "SDS1104X" } },
       { name := "siglent_sds1104xe",
         info := { manufacturer := "Siglent", model := "SDS1104XE" } }]
      "Siglent Technologies,SDS1104X-E,SDL13GCQ6R1247,1.1.1.22\n" ∈
      matchedDevices
        [{ name := "siglent_sds1104x",
           info := { manufacturer := "Siglent", model := "SDS1104X" } },
         { name := "siglent_sds1104xe",
           info := { manufacturer := "Siglent", model := "SDS1104XE" } }]
        "Siglent Technologies,SDS1104X-E,SDL13GCQ6R1247,1.1.1.22\n" := by
  constructor
  · decide
  · exact (get_registered_device_longest_match _ _ (by decide)).1

set_option maxRecDepth 8000

/-- Claim C7 — `_safe_string_to_float` tries, in order: a direct `float`
parse of the whole string, the scientific pattern, the decimal pattern, the
integer pattern, and returns the converted matches of the first stage that
succeeds; with no match it warns and returns `[0.0]`.  In particular
`"+1.23E-04"` gives `[1.23e-4]`, `"5"` gives `[5.0]` and `"VOLT,DC,AUTO"`
gives `[0.0]` plus a warning. -/
theorem safe_string_to_float_priority (s : String) :
    (∀ v, python_float s = some v →
      GenericDevice.safe_string_to_float s = ([v], [])) ∧
    (python_float s = none → pyFindall matchSci s ≠ [] →
      (GenericDevice.safe_string_to_float s).1 =
        (pyFindall matchSci s).map (fun m => (convertMatch s m).1)) ∧
    (python_float s = none → pyFindall matchSci s = [] → pyFindall matchFloatPat s ≠ [] →
      (GenericDevice.safe_string_to_float s).1 =
        (pyFindall matchFloatPat s).map (fun m => (convertMatch s m).1)) ∧
    (python_float s = none → pyFindall matchSci s = [] → pyFindall matchFloatPat s = [] →
      pyFindall matchIntPat s ≠ [] →
      (GenericDevice.safe_string_to_float s).1 =
        (pyFindall matchIntPat s).map (fun m => (convertMatch s m).1)) ∧
    (python_float s = none → pyFindall matchSci s = [] → pyFindall matchFloatPat s = [] →
      pyFindall matchIntPat s = [] →
      GenericDevice.safe_string_to_float s =
        ([.finite 0],
         ["Failed to convert instrument response <" ++ s ++ "> to float. Returning [0.0]"])) ∧
    GenericDevice.safe_string_to_float "+1.23E-04" =
      ([.finite (123 / 1000000)], []) ∧
    GenericDevice.safe_string_to_float "5" = ([.finite 5], []) ∧
    GenericDevice.safe_string_to_float "VOLT,DC,AUTO" =
      ([.finite 0],
       ["Failed to convert instrument response <VOLT,DC,AUTO> to float. Returning [0.0]"]) := by
  refine ⟨?_, ?_, ?_, ?_, ?_, ?_, ?_, ?_⟩
  · intro v h
    unfold GenericDevice.safe_string_to_float
    rw [h]
  · intro h hne
    unfold GenericDevice.safe_string_to_float
    rw [h]
    rcases hm : pyFindall matchSci s with _ | ⟨m, ms⟩
    · exact absurd hm hne
    · simp [hm, List.map_map, Function.comp]
  · intro h h1 hne
    unfold GenericDevice.safe_string_to_float
    rw [h]
    rcases hm : pyFindall matchFloatPat s with _ | ⟨m, ms⟩
    · exact absurd hm hne
    · simp [h1, hm, List.map_map, Function.comp]
  · intro h h1 h2 hne
    unfold GenericDevice.safe_string_to_float
    rw [h]
    rcases hm : pyFindall matchIntPat s with _ | ⟨m, ms⟩
    · exact absurd hm hne
    · simp [h1, h2, hm, List.map_map, Function.comp]
  · intro h h1 h2 h3
    unfold GenericDevice.safe_string_to_float
    rw [h]
    simp [h1, h2, h3]
  · with_unfolding_all rfl
  · with_unfolding_all rfl
  · with_unfolding_all rfl

/-- Witness for the extractor: the direct-parse stage at `"+1.23E-04"`. -/
theorem safe_string_to_float_priority_witness :
    GenericDevice.safe_string_to_float "+1.23E-04" =
      ([.finite (123 / 1000000)], []) ∧
    GenericDevice.safe_string_to_float "VOLT,DC,AUTO" =
      ([.finite 0],
       ["Failed to convert instrument response <VOLT,DC,AUTO> to float. Returning [0.0]"]) := by
  constructor
  · exact (safe_string_to_float_priority "+1.23E-04").1
      (.finite (123 / 1000000)) (by with_unfolding_all rfl)
  · exact (safe_string_to_float_priority "VOLT,DC,AUTO").2.2.2.2.1
      (by with_unfolding_all rfl) (by with_unfolding_all rfl)
      (by with_unfolding_all rfl) (by with_unfolding_all rfl)

/-- Recognises dispatch events. -/
def isDispatchEv : Ev → Bool
  | .dispatch _ => true
  | _ => false

/-- When every one of the five guarded dispatch attempts fails, the loop
performs the final unguarded dispatch: the overall outcome is `conn 5`, and
the trace interleaves the five failed dispatches with their (conditional)
reconnects and sleeps, ending in the sixth dispatch. -/
theorem send_retry_loop_all_fail (conn : Nat → Except VisaErr String)
    (es : Nat → VisaErr) (h : ∀ i, i < 5 → conn i = .error (es i)) :
    send_retry_loop conn 0 = (conn 5,
      ([Ev.dispatch 0] ++ (if (es 0).error_code = connLostCode then [Ev.reconnect] else []) ++
        [Ev.sleep1]) ++
      (([Ev.dispatch 1] ++ (if (es 1).error_code = connLostCode then [Ev.reconnect] else []) ++
        [Ev.sleep1]) ++
      (([Ev.dispatch 2] ++ (if (es 2).error_code = connLostCode then [Ev.reconnect] else []) ++
        [Ev.sleep1]) ++
      (([Ev.dispatch 3] ++ (if (es 3).error_code = connLostCode then [Ev.reconnect] else []) ++
        [Ev.sleep1]) ++
      (([Ev.dispatch 4] ++ (if (es 4).error_code = connLostCode then [Ev.reconnect] else []) ++
        [Ev.sleep1]) ++ [Ev.dispatch 5]))))) := by
  have e0 := h 0 (by norm_num)
  have e1 := h 1 (by norm_num)
  have e2 := h 2 (by norm_num)
  have e3 := h 3 (by norm_num)
  have e4 := h 4 (by norm_num)
  rw [send_retry_loop, dif_pos (by norm_num : (0 : Nat) < 5), e0]
  rw [send_retry_loop, dif_pos (by norm_num : (1 : Nat) < 5), e1]
  rw [send_retry_loop, dif_pos (by norm_num : (2 : Nat) < 5), e2]
  rw [send_retry_loop, dif_pos (by norm_num : (3 : Nat) < 5), e3]
  rw [send_retry_loop, dif_pos (by norm_num : (4 : Nat) < 5), e4]
  norm_num

/-- If every dispatch before attempt `j ≤ 5` fails and attempt `j`
succeeds with `r`, the loop's outcome is `.ok r`. -/
theorem send_retry_loop_first_ok (conn : Nat → Except VisaErr String) (r : String) :
    ∀ n k j, 5 - k ≤ n → k ≤ j → j ≤ 5 →
    (∀ i, k ≤ i → i < j → (conn i).isOk = false) → conn j = .ok r →
    (send_retry_loop conn k).1 = .ok r := by
  intro n
  induction n with
  | zero =>
    intro k j hn hkj hj5 _ hok
    have hk5 : ¬ k < 5 := by omega
    have hkeq : k = j := by omega
    rw [send_retry_loop, dif_neg hk5, hkeq, hok]
  | succ n ih =>
    intro k j hn hkj hj5 hfail hok
    by_cases hk5 : k < 5
    · by_cases hkeq : k = j
      · subst hkeq
        rw [send_retry_loop, dif_pos hk5, hok]
      · have hklt : k < j := lt_of_le_of_ne hkj hkeq
        have hkerr := hfail k le_rfl hklt
        rcases hc : conn k with e | v
        · rw [send_retry_loop, dif_pos hk5, hc]
          dsimp only
          by_cases h15 : k + 1 = 5
          · have hj : j = 5 := by omega
            rw [if_pos h15]
            dsimp only
            rw [← hj, hok]
          · rw [if_neg h15]
            dsimp only
            exact ih (k + 1) j (by omega) (by omega) hj5
              (fun i hi1 hi2 => hfail i (by omega) hi2) hok
        · rw [hc] at hkerr
          exact Bool.noConfusion hkerr
    · have hkeq : k = j := by omega
      rw [send_retry_loop, dif_neg hk5, hkeq, hok]

/-- A reconnect event in the loop trace certifies that some caught failed
attempt had the connection-lost error code. -/
theorem send_retry_loop_reconnect_sound (conn : Nat → Except VisaErr String) :
    ∀ n k, 5 - k ≤ n → Ev.reconnect ∈ (send_retry_loop conn k).2 →
    ∃ i e, i < 5 ∧ conn i = .error e ∧ e.error_code = connLostCode := by
  intro n
  induction n with
  | zero =>
    intro k hn hmem
    have hk5 : ¬ k < 5 := by omega
    rw [send_retry_loop, dif_neg hk5] at hmem
    simp at hmem
  | succ n ih =>
    intro k hn hmem
    by_cases hk5 : k < 5
    · rw [send_retry_loop, dif_pos hk5] at hmem
      rcases hc : conn k with e | v
      · rw [hc] at hmem
        dsimp only at hmem
        by_cases hcode : e.error_code = connLostCode
        · exact ⟨k, e, hk5, hc, hcode⟩
        · by_cases h15 : k + 1 = 5
          · rw [if_pos h15] at hmem
            simp [hcode] at hmem
          · rw [if_neg h15] at hmem
            simp only [List.append_assoc, List.mem_append, hcode] at hmem
            rcases hmem with h1 | h1
            · simp at h1
            · rcases h1 with h1 | h1
              · simp at h1
              · rcases h1 with h1 | h1
                · simp at h1
                · exact ih (k + 1) (by omega) h1
      · rw [hc] at hmem
        simp at hmem
    · rw [send_retry_loop, dif_neg hk5] at hmem
      simp at hmem

/-- The loop dispatches at most `(5 - k) + 1` times. -/
theorem send_retry_loop_dispatch_le (conn : Nat → Except VisaErr String) :
    ∀ n k, 5 - k ≤ n → ((send_retry_loop conn k).2.countP (fun ev => isDispatchEv ev)) ≤ n + 1 := by
  intro n
  induction n with
  | zero =>
    intro k hn
    have hk5 : ¬ k < 5 := by omega
    rw [send_retry_loop, dif_neg hk5]
    simp
  | succ n ih =>
    intro k hn
    by_cases hk5 : k < 5
    · rw [send_retry_loop, dif_pos hk5]
      rcases hc : conn k with e | v
      · dsimp only
        by_cases h15 : k + 1 = 5
        · rw [if_pos h15]
          by_cases hcode : e.error_code = connLostCode <;>
            simp [hcode, List.countP_append, isDispatchEv]
        · rw [if_neg h15]
          have hrec := ih (k + 1) (by omega)
          by_cases hcode : e.error_code = connLostCode <;>
            simp [hcode, List.countP_append, isDispatchEv] at hrec ⊢ <;> omega
      · simp [isDispatchEv]
    · rw [send_retry_loop, dif_neg hk5]
      simp

/-- The retry loop never emits an operation-complete wait. -/
theorem send_retry_loop_no_opc (conn : Nat → Except VisaErr String) :
    ∀ n k, 5 - k ≤ n → Ev.opcWait ∉ (send_retry_loop conn k).2 := by
  intro n
  induction n with
  | zero =>
    intro k hn
    have hk5 : ¬ k < 5 := by omega
    rw [send_retry_loop, dif_neg hk5]
    simp
  | succ n ih =>
    intro k hn
    by_cases hk5 : k < 5
    · rw [send_retry_loop, dif_pos hk5]
      rcases hc : conn k with e | v
      · dsimp only
        by_cases h15 : k + 1 = 5
        · rw [if_pos h15]
          by_cases hcode : e.error_code = connLostCode <;> simp [hcode]
        · rw [if_neg h15]
          have hrec := ih (k + 1) (by omega)
          by_cases hcode : e.error_code = connLostCode <;> simp [hcode, hrec]
      · simp
    · rw [send_retry_loop, dif_neg hk5]
      simp

/-- Claim C8 — with `skip_opc = false` the operation-complete wait happens
exactly once and strictly before any dispatch (it heads the event trace and
never recurs); with `skip_opc = true` it never happens. -/
theorem send_command_opc_exactly_once (conn : Nat → Except VisaErr String) :
    (∃ t, (GenericDevice.send_command conn false).2 = Ev.opcWait :: t ∧ Ev.opcWait ∉ t) ∧
    Ev.opcWait ∉ (GenericDevice.send_command conn true).2 := by
  have hno := send_retry_loop_no_opc conn 5 0 (by norm_num)
  constructor
  · exact ⟨(send_retry_loop conn 0).2, rfl, hno⟩
  · simpa [GenericDevice.send_command] using hno

theorem isDispatchEv_dispatch (n : Nat) : isDispatchEv (Ev.dispatch n) = true := rfl

theorem isDispatchEv_sleep : isDispatchEv Ev.sleep1 = false := rfl

theorem isDispatchEv_reconnect : isDispatchEv Ev.reconnect = false := rfl

theorem isDispatchEv_opc : isDispatchEv Ev.opcWait = false := rfl

theorem count_reconnect_ite (c : Prop) [Decidable c] :
    List.count Ev.reconnect (if c then [Ev.reconnect] else []) = if c then 1 else 0 := by
  by_cases h : c <;> simp [h]

theorem count_sleep_ite (c : Prop) [Decidable c] :
    List.count Ev.sleep1 (if c then [Ev.reconnect] else []) = 0 := by
  by_cases h : c <;> simp [h]

theorem countP_dispatch_ite (c : Prop) [Decidable c] :
    List.countP (fun ev => isDispatchEv ev) (if c then [Ev.reconnect] else []) = 0 := by
  by_cases h : c <;> simp [h, isDispatchEv]

set_option maxHeartbeats 1000000

/-- Claim C6 — `send_command`'s retry behaviour: (1) when all five guarded
attempts fail, the result is the sixth dispatch's outcome (its error
propagates uncaught), with six dispatches, a 1-second sleep after each of
the five caught failures, and a reconnect for exactly the caught failures
whose code is the connection-lost code; (2) any successful attempt's
response is returned; (3) a reconnect happens only when some caught failed
attempt had the connection-lost code; (4) never more than six dispatches. -/
theorem send_command_retry_contract (conn : Nat → Except VisaErr String)
    (es : Nat → VisaErr) (skip_opc : Bool) :
    ((∀ i, i < 5 → conn i = .error (es i)) →
      (GenericDevice.send_command conn skip_opc).1 = conn 5 ∧
      (GenericDevice.send_command conn skip_opc).2.countP (fun ev => isDispatchEv ev) = 6 ∧
      (GenericDevice.send_command conn skip_opc).2.count Ev.sleep1 = 5 ∧
      (GenericDevice.send_command conn skip_opc).2.count Ev.reconnect =
        ((if (es 0).error_code = connLostCode then 1 else 0) +
         (if (es 1).error_code = connLostCode then 1 else 0) +
         (if (es 2).error_code = connLostCode then 1 else 0) +
         (if (es 3).error_code = connLostCode then 1 else 0) +
         (if (es 4).error_code = connLostCode then 1 else 0))) ∧
    (∀ j r, j ≤ 5 → (∀ i, i < j → (conn i).isOk = false) → conn j = .ok r →
      (GenericDevice.send_command conn skip_opc).1 = .ok r) ∧
    (Ev.reconnect ∈ (GenericDevice.send_command conn skip_opc).2 →
      ∃ i e, i < 5 ∧ conn i = .error e ∧ e.error_code = connLostCode) ∧
    (GenericDevice.send_command conn skip_opc).2.countP (fun ev => isDispatchEv ev) ≤ 6 := by
  have hpair : GenericDevice.send_command conn skip_opc =
      ((send_retry_loop conn 0).1,
       (if skip_opc then [] else [Ev.opcWait]) ++ (send_retry_loop conn 0).2) := rfl
  refine ⟨?_, ?_, ?_, ?_⟩
  · intro h
    have hall := send_retry_loop_all_fail conn es h
    rw [hpair, hall]
    refine ⟨rfl, ?_, ?_, ?_⟩ <;>
      (cases skip_opc <;>
        simp [List.countP_append, List.count_append, count_reconnect_ite,
          count_sleep_ite, countP_dispatch_ite, isDispatchEv_dispatch,
          isDispatchEv_sleep, isDispatchEv_reconnect, isDispatchEv_opc,
          List.count_cons, List.countP_cons] <;> omega)
  · intro j r hj hfail hok
    exact send_retry_loop_first_ok conn r 5 0 j (by norm_num) (by omega) hj
      (fun i _ hij => hfail i hij) hok
  · intro hmem
    cases skip_opc
    · have hmem2 : Ev.reconnect ∈ (send_retry_loop conn 0).2 := by
        simpa [GenericDevice.send_command] using hmem
      exact send_retry_loop_reconnect_sound conn 5 0 (by norm_num) hmem2
    · have hmem2 : Ev.reconnect ∈ (send_retry_loop conn 0).2 := by
        simpa [GenericDevice.send_command] using hmem
      exact send_retry_loop_reconnect_sound conn 5 0 (by norm_num) hmem2
  · have hd := send_retry_loop_dispatch_le conn 5 0 (by norm_num)
    cases skip_opc <;>
      simpa [GenericDevice.send_command, List.countP_append, isDispatchEv] using hd

/-- Witness for the retry contract: a connection that fails twice with the
connection-lost code and succeeds on the third dispatch returns the
response; a connection that always fails propagates the final error and
reconnects five times. -/
theorem send_command_retry_contract_witness :
    (GenericDevice.send_command
      (fun i => if i = 2 then .ok "42" else .error ⟨connLostCode⟩) false).1 = .ok "42" ∧
    (GenericDevice.send_command (fun _ => .error ⟨connLostCode⟩) true).1 =
      .error ⟨connLostCode⟩ ∧
    (GenericDevice.send_command (fun _ => .error ⟨connLostCode⟩) true).2.count
      Ev.reconnect = 5 := by
  refine ⟨?_, ?_, ?_⟩
  · exact (send_command_retry_contract
      (fun i => if i = 2 then .ok "42" else .error ⟨connLostCode⟩)
      (fun _ => ⟨connLostCode⟩) false).2.1 2 "42" (by norm_num)
      (fun i hi => by interval_cases i <;> rfl) rfl
  · exact ((send_command_retry_contract (fun _ => .error ⟨connLostCode⟩)
      (fun _ => ⟨connLostCode⟩) true).1 (fun i _ => rfl)).1
  · have := ((send_command_retry_contract (fun _ => .error ⟨connLostCode⟩)
      (fun _ => ⟨connLostCode⟩) true).1 (fun i _ => rfl)).2.2.2
    simpa using this

end LabAssist
